import Mathlib

/-!
Verification development for the tlparser repository.

This file gives a shallow embedding of the core of the repository:
`src/tlparser/stats.py` (comparison-operator normalizer, AST walker,
entropy calculator), `src/tlparser/spot_tools.py` (external automata
toolchain protocol) and `src/tlparser/stats_ext.py` (the SpotAnalyzer
facade), and proves or refutes the frozen claims about them.

Conventions used throughout:
* Python strings are modelled as `String` / `List Char`; the regular
  expressions of the source are embedded as explicit scanners whose
  semantics match Python `re` on the relevant patterns (the patterns in
  the source never need backtracking, as argued in the comments).
* Python `\w` is modelled for ASCII input (letters, digits, underscore).
* Fallible Python code (a raised exception) is modelled with `Option` /
  `Except`.
-/

namespace Tlparser

/-! ## Comparison-operator counting, stats.py lines 91-107 -/

/-- Python word character (re `\w`, ASCII range). -/
def isWordChar (c : Char) : Bool :=
  c.isAlpha || c.isDigit || c = '_'

/-- Character class of the identifier part of the rewrite pattern, re `[\w.]`. -/
def isWordDot (c : Char) : Bool :=
  isWordChar c || c = '.'

/-- Model of Python `re.sub("-->", "__IMPLIES__", s)` (stats.py line 104):
replace each non-overlapping occurrence of the three characters `-`, `-`, `>`
scanning left to right. -/
def replaceImplies : List Char → List Char
  | '-' :: '-' :: '>' :: rest => ("__IMPLIES__".toList) ++ replaceImplies rest
  | c :: rest => c :: replaceImplies rest
  | [] => []

/-- Number of non-overlapping matches of a fixed two-character pattern,
as computed by `re.findall` on a plain two-character pattern (used for the
`==`, `<=`, `>=` and `!=` patterns of stats.py lines 95-98). -/
def count2 (a b : Char) : List Char → Nat
  | x :: y :: rest =>
      if x = a ∧ y = b then count2 a b rest + 1 else count2 a b (y :: rest)
  | _ => 0

/-- One scanning step of the guarded single-character patterns
`(?<!p)c(?![n1n2])` of stats.py lines 99-100: the character `c` matches at a
position when the previous character is not `p` and the next character is
neither `n1` nor `n2`.  The `prev` argument carries the character just before
the current position (`Option.none` at the start of the string). -/
def countGuarded (c p n1 n2 : Char) : Option Char → List Char → Nat
  | _, [] => 0
  | prev, x :: rest =>
      (if x = c ∧ prev ≠ some p ∧ rest.head? ≠ some n1 ∧ rest.head? ≠ some n2
       then 1 else 0)
        + countGuarded c p n1 n2 (some x) rest

/-- The comparison-operator tally of stats.py lines 39-46 (`self.cops`). -/
structure Cops where
  eq : Nat
  neq : Nat
  gt : Nat
  geq : Nat
  lt : Nat
  leq : Nat
deriving DecidableEq, Repr

/-- The counting half of `Stats.analyse_comparison_ops` (stats.py lines
93-107): the six patterns are counted on the raw formula after the `-->`
substitution.  `lt` is the pattern `(?<!<)<(?![=<])` and `gt` is
`(?<!>)>(?![=>])`. -/
def copsCounts (formula_str : String) : Cops :=
  let t := replaceImplies formula_str.toList
  { eq := count2 '=' '=' t
    neq := count2 '!' '=' t
    gt := countGuarded '>' '>' '=' '>' Option.none t
    geq := count2 '>' '=' t
    lt := countGuarded '<' '<' '=' '<' Option.none t
    leq := count2 '<' '=' t }

/-! ## The comparison rewrite, stats.py lines 109-132

The rewrite pattern is `\b[\w.]+ *[<>!=]=? *-?\w+\b`.  For this pattern a
greedy scanner without backtracking is equivalent to Python `re` semantics:
shrinking any of the greedy pieces only ever exposes characters that cannot
match the following piece (`[\w.]`/space characters are not comparator
characters, and the trailing `\b` after a maximal `\w+` run always holds). -/

/-- Python word boundary `\b` between a previous character and a current one
(`Option.none` is the edge of the string, a non-word position). -/
def wordBoundary (prev cur : Option Char) : Bool :=
  (match prev with | some c => isWordChar c | Option.none => false)
    ≠ (match cur with | some c => isWordChar c | Option.none => false)

/-- Greedy match of `\b[\w.]+ *[<>!=]=? *-?\w+\b` at the start of `l`,
given the character just before `l`.  Returns the number of characters the
match consumes. -/
def matchCompareLen (prev : Option Char) (l : List Char) : Option Nat :=
  if wordBoundary prev l.head? then
    let idPart := l.takeWhile isWordDot
    if idPart.isEmpty then Option.none else
    let r1 := l.drop idPart.length
    let sp1 := r1.takeWhile (· = ' ')
    let r2 := r1.drop sp1.length
    match r2 with
    | c :: r3 =>
      if c = '<' ∨ c = '>' ∨ c = '!' ∨ c = '=' then
        let eqAndRest : Nat × List Char :=
          match r3 with
          | '=' :: r4 => (1, r4)
          | _ => (0, r3)
        let r4 := eqAndRest.2
        let sp2 := r4.takeWhile (· = ' ')
        let r5 := r4.drop sp2.length
        let minusAndRest : Nat × List Char :=
          match r5 with
          | '-' :: r6 => (1, r6)
          | _ => (0, r5)
        let r6 := minusAndRest.2
        let word := r6.takeWhile isWordChar
        if word.isEmpty then Option.none
        else some (idPart.length + sp1.length + 1 + eqAndRest.1
                    + sp2.length + minusAndRest.1 + word.length)
      else Option.none
    | [] => Option.none
  else Option.none

/-- A successful match consumes at least one character. -/
theorem matchCompareLen_pos (prev : Option Char) (l : List Char) (n : Nat)
    (h : matchCompareLen prev l = some n) : 0 < n := by
  unfold matchCompareLen at h
  split at h
  · try simp only [] at h
    split at h
    · exact absurd h (by simp)
    · try simp only [] at h
      split at h
      · split at h
        · try simp only [] at h
          split at h
          · exact absurd h (by simp)
          · simp only [Option.some.injEq] at h
            omega
        · exact absurd h (by simp)
      · exact absurd h (by simp)
  · exact absurd h (by simp)

/-- Replace every occurrence of the two-character pattern `a b` by `repl`
(Python `str.replace` with a two-character needle, non-overlapping, left to
right). -/
def replaceAll2 (a b : Char) (repl : List Char) : List Char → List Char
  | x :: y :: rest =>
      if x = a ∧ y = b then repl ++ replaceAll2 a b repl rest
      else x :: replaceAll2 a b repl (y :: rest)
  | l => l

/-- Replace every occurrence of the character `a` by `repl`
(Python `str.replace` with a one-character needle). -/
def replaceAll1 (a : Char) (repl : List Char) : List Char → List Char
  | [] => []
  | c :: rest => (if c = a then repl else [c]) ++ replaceAll1 a repl rest

/-- Does the two-character pattern `a b` occur in the list (Python
`"ab" in s`)? -/
def hasSub2 (a b : Char) : List Char → Bool
  | x :: y :: rest => (x = a ∧ y = b) ∨ hasSub2 a b (y :: rest)
  | _ => false

/-- stats.py lines 110-124, the `replace_comparisons` sub-function: the
matched window has its spaces stripped and `-` replaced by `n`, then the
first comparator contained in it is rewritten to a named token.  When no
branch applies (a bare `=` or `!` window) Python returns `None`, which makes
`re.sub` raise; this is `Option.none` here. -/
def replace_comparisons (window : List Char) : Option (List Char) :=
  let expression := window.filter (fun c => ¬ (c = ' '))
  let expression := expression.map (fun c => if c = '-' then 'n' else c)
  if hasSub2 '<' '=' expression then
    some (replaceAll2 '<' '=' ("_leq_".toList) expression)
  else if hasSub2 '>' '=' expression then
    some (replaceAll2 '>' '=' ("_geq_".toList) expression)
  else if hasSub2 '=' '=' expression then
    some (replaceAll2 '=' '=' ("_eq_".toList) expression)
  else if hasSub2 '!' '=' expression then
    some (replaceAll2 '!' '=' ("_neq_".toList) expression)
  else if expression.contains '<' then
    some (replaceAll1 '<' ("_lt_".toList) expression)
  else if expression.contains '>' then
    some (replaceAll1 '>' ("_gt_".toList) expression)
  else Option.none

/-- The scanning loop of `re.sub(pattern, replace_comparisons, formula_str)`
(stats.py lines 127-129).  `prev` is the character of the original string
just before the current position.  A replacement function returning `None`
aborts the whole substitution (Python raises `TypeError`), hence the
`Option` result.  The first argument is a step counter used as the
structural recursion measure: every step consumes at least one character
(`matchCompareLen_pos`), so a counter equal to the remaining length never
reaches the counter-exhausted branch. -/
def rewriteScanF : Nat → Option Char → List Char → Option (List Char)
  | _, _, [] => some []
  | 0, _, l => some l
  | fuel+1, prev, c :: rest =>
    match matchCompareLen prev (c :: rest) with
    | some n =>
      let window := (c :: rest).take n
      match replace_comparisons window with
      | some repl =>
          (rewriteScanF fuel window.getLast? ((c :: rest).drop n)).map (repl ++ ·)
      | Option.none => Option.none
    | Option.none => (rewriteScanF fuel (some c) rest).map (c :: ·)

/-- The substitution of stats.py lines 127-129 on a whole string. -/
def rewriteScan (prev : Option Char) (l : List Char) : Option (List Char) :=
  rewriteScanF l.length prev l

/-- stats.py line 132: `re.sub(r"(\d+(\.\d+)?)", r"n\1", s)` prefixes every
maximal numeral (with optional fractional part) with the letter `n`. -/
def markNumbersF : Nat → List Char → List Char
  | _, [] => []
  | 0, l => l
  | fuel+1, c :: rest =>
    if c.isDigit then
      match rest.drop (rest.takeWhile Char.isDigit).length with
      | '.' :: r2 =>
        if (r2.takeWhile Char.isDigit).isEmpty then
          'n' :: c :: rest.takeWhile Char.isDigit
            ++ markNumbersF fuel (rest.drop (rest.takeWhile Char.isDigit).length)
        else
          'n' :: c :: rest.takeWhile Char.isDigit ++ '.' :: r2.takeWhile Char.isDigit
            ++ markNumbersF fuel (r2.drop (r2.takeWhile Char.isDigit).length)
      | _ =>
          'n' :: c :: rest.takeWhile Char.isDigit
            ++ markNumbersF fuel (rest.drop (rest.takeWhile Char.isDigit).length)
    else c :: markNumbersF fuel rest

/-- The digit-marker substitution on a whole string (the step counter follows
the same convention as `rewriteScanF`: every step consumes at least one
character, so the counter-exhausted branch is unreachable). -/
def markNumbers (l : List Char) : List Char := markNumbersF l.length l

/-- `Stats.analyse_comparison_ops` (stats.py lines 91-134): the counts are
taken on the raw string (after protecting `-->`), the rewrite runs on the
original raw string, and the digit marker runs on the rewritten string.
When the rewrite raises (`replace_comparisons` returned `None`) the whole
call fails and no result is produced. -/
def analyse_comparison_ops (formula_str : String) : Option (Cops × String) :=
  match rewriteScan Option.none formula_str.toList with
  | some modified => some (copsCounts formula_str, String.mk (markNumbers modified))
  | Option.none => Option.none

/-! ## Claims C1, C8, C10 -/

/-- Index-based reading of the guarded single-character pattern
`(?<!p)c(?![n1n2])` actually used by the code: position `i` of `l` holds `c`,
the previous character (or `prev` when `i = 0`) is not `p`, and the next
character is neither `n1` nor `n2`. -/
def guardedAt (c p n1 n2 : Char) (prev : Option Char) (l : List Char) (i : Nat) : Bool :=
  (l.get? i == some c) &&
  ((if i = 0 then prev else l.get? (i - 1)) != some p) &&
  (l.get? (i + 1) != some n1) && (l.get? (i + 1) != some n2)

theorem guardedAt_succ (c p n1 n2 : Char) (prev : Option Char) (x : Char)
    (rest : List Char) (i : Nat) :
    guardedAt c p n1 n2 prev (x :: rest) (i + 1) = guardedAt c p n1 n2 (some x) rest i := by
  unfold guardedAt
  cases i with
  | zero => simp
  | succ j => simp

/-- The scanning count agrees with the index-based reading of the pattern. -/
theorem countGuarded_eq_countP (c p n1 n2 : Char) (prev : Option Char) (l : List Char) :
    countGuarded c p n1 n2 prev l
      = (List.range l.length).countP (guardedAt c p n1 n2 prev l) := by
  induction l generalizing prev with
  | nil => simp [countGuarded]
  | cons x rest ih =>
    rw [countGuarded, List.length_cons, List.range_succ_eq_map, List.countP_cons,
      List.countP_map]
    have hpt : ((guardedAt c p n1 n2 prev (x :: rest)) ∘ Nat.succ)
        = guardedAt c p n1 n2 (some x) rest := by
      funext i
      exact guardedAt_succ c p n1 n2 prev x rest i
    rw [hpt, ← ih (some x)]
    have hcond : guardedAt c p n1 n2 prev (x :: rest) 0 = true
        ↔ (x = c ∧ prev ≠ some p ∧ rest.head? ≠ some n1 ∧ rest.head? ≠ some n2) := by
      unfold guardedAt
      cases rest <;> simp [and_assoc]
    have hhead : (if guardedAt c p n1 n2 prev (x :: rest) 0 = true then 1 else 0)
        = (if x = c ∧ prev ≠ some p ∧ rest.head? ≠ some n1 ∧ rest.head? ≠ some n2
           then 1 else 0) := by
      by_cases hc : x = c ∧ prev ≠ some p ∧ rest.head? ≠ some n1 ∧ rest.head? ≠ some n2
      · rw [if_pos (hcond.mpr hc), if_pos hc]
      · rw [if_neg (fun hh => hc (hcond.mp hh)), if_neg hc]
    omega

/-- The boundary rule exactly as claim C1 states it: a neighbour is bad when
it is one of the characters `=`, `<`, `>`. -/
def badNeighbor : Option Char → Bool
  | some '=' => true
  | some '<' => true
  | some '>' => true
  | _ => false

/-- The number of `lt` matches claim C1 predicts: a `<` counts only when
neither the previous nor the next character is any of `=`, `<`, `>`. -/
def claimLtCount (l : List Char) : Nat :=
  (List.range l.length).countP (fun i =>
    (l.get? i == some '<') && !(badNeighbor (if i = 0 then Option.none else l.get? (i - 1)))
      && !(badNeighbor (l.get? (i + 1))))

/-- The number of `gt` matches claim C1 predicts (symmetric rule). -/
def claimGtCount (l : List Char) : Nat :=
  (List.range l.length).countP (fun i =>
    (l.get? i == some '>') && !(badNeighbor (if i = 0 then Option.none else l.get? (i - 1)))
      && !(badNeighbor (l.get? (i + 1))))

/-- C1, counterexample.  On the raw formula `<>` the code counts one `lt`
occurrence and one `gt` occurrence (the code's lookarounds only exclude
`=`/`<` after and `<` before a `<`, symmetrically for `>`), whereas the
claim's rule — a `<` counts only when neither neighbour is `=`/`<`/`>`, so
that `<>` contributes to none of lt/gt — predicts zero for both.  Hence the
claim is false as stated. -/
theorem C1_counterexample :
    (copsCounts "<>").lt = 1 ∧ (copsCounts "<>").gt = 1 ∧
    claimLtCount (replaceImplies ("<>".toList)) = 0 ∧
    claimGtCount (replaceImplies ("<>".toList)) = 0 := by
  refine ⟨by decide, by decide, by decide, by decide⟩

/-- C1, amended.  The comparison counts are computed on the raw string after
first replacing every occurrence of `-->`; a `<` is counted as an `lt`
occurrence exactly when it is not preceded by `<` and not followed by `=` or
`<` (and symmetrically, a `>` is counted as `gt` exactly when it is not
preceded by `>` and not followed by `=` or `>`), so `<=` and `>=` each
contribute to exactly one of the six counts, while `<>` contributes one `lt`
and one `gt`. -/
theorem C1_boundary_rule_amended :
    (∀ s : String,
      (copsCounts s).lt = (List.range (replaceImplies s.toList).length).countP
          (guardedAt '<' '<' '=' '<' Option.none (replaceImplies s.toList)) ∧
      (copsCounts s).gt = (List.range (replaceImplies s.toList).length).countP
          (guardedAt '>' '>' '=' '>' Option.none (replaceImplies s.toList))) ∧
    copsCounts "<=" = ⟨0, 0, 0, 0, 0, 1⟩ ∧
    copsCounts ">=" = ⟨0, 0, 0, 1, 0, 0⟩ ∧
    copsCounts "<>" = ⟨0, 0, 1, 0, 1, 0⟩ ∧
    copsCounts "a --> b" = ⟨0, 0, 0, 0, 0, 0⟩ := by
  refine ⟨fun s => ⟨?_, ?_⟩, by decide, by decide, by decide, by decide⟩
  · exact countGuarded_eq_countP '<' '<' '=' '<' Option.none (replaceImplies s.toList)
  · exact countGuarded_eq_countP '>' '>' '=' '>' Option.none (replaceImplies s.toList)

/-- C8, confirmed.  Normalizing `x == 9` produces `x_eq_n9`, which contains
no `==`; running the normalizer again on that output finds zero comparisons.
The same round-trip holds for a full formula containing `x == 9`-style
comparisons. -/
theorem C8_normalize_roundtrip :
    analyse_comparison_ops "x == 9" = some (⟨1, 0, 0, 0, 0, 0⟩, "x_eq_n9") ∧
    hasSub2 '=' '=' ("x_eq_n9".toList) = false ∧
    (analyse_comparison_ops "x_eq_n9").map Prod.fst = some ⟨0, 0, 0, 0, 0, 0⟩ ∧
    analyse_comparison_ops "G((y and u == 9) --> F(not y or i < 3))"
      = some (⟨1, 0, 0, 0, 1, 0⟩, "G((y and u_eq_n9) --> F(not y or i_lt_n3))") ∧
    hasSub2 '=' '=' ("G((y and u_eq_n9) --> F(not y or i_lt_n3))".toList) = false ∧
    (analyse_comparison_ops "G((y and u_eq_n9) --> F(not y or i_lt_n3))").map Prod.fst
      = some ⟨0, 0, 0, 0, 0, 0⟩ := by
  refine ⟨by decide, by decide, by decide, by decide, by decide, by decide⟩

/-- C10, confirmed.  A window of the shape identifier, spaces, bare `=` (or
bare `!`), spaces, term matches the rewrite pattern but makes the replacement
sub-function return `None`, so `Stats.analyse_comparison_ops` raises instead
of returning: on `a = b` (and on `a ! b`) the rewrite fails and the call
produces no result. -/
theorem C10_bare_comparator_raises :
    analyse_comparison_ops "a = b" = Option.none ∧
    replace_comparisons (("a = b").toList) = Option.none ∧
    matchCompareLen Option.none (("a = b").toList) = some 5 ∧
    analyse_comparison_ops "a ! b" = Option.none := by
  refine ⟨by decide, by decide, by decide, by decide⟩

/-! ## The AST walker, stats.py lines 136-173

The AST is the tree produced by the external parser collaborator
(pyModelChecking CTLS): each node is an atomic proposition or an operator
node carrying its subformulas in `_subformula`.  The walker only reads the
`_subformula` list, so And/Or/Imply/Not carry a child list here; the
temporal operators keep the parser's fixed arities. -/

/-- The logical-operator tally of stats.py lines 60-65 (`self.lops`). -/
structure Lops where
  impl : Nat := 0
  and : Nat := 0
  or : Nat := 0
  not : Nat := 0
deriving DecidableEq, Repr

/-- The temporal-operator tally of stats.py lines 49-57 (`self.tops`). -/
structure Tops where
  A : Nat := 0
  E : Nat := 0
  X : Nat := 0
  F : Nat := 0
  G : Nat := 0
  U : Nat := 0
  R : Nat := 0
deriving DecidableEq, Repr

/-- The AST node taxonomy consumed by `Stats.analyze_formula`. -/
inductive Formula where
  | ap (name : String)
  | not (sub : List Formula)
  | and (sub : List Formula)
  | or (sub : List Formula)
  | imply (sub : List Formula)
  | x (φ : Formula)
  | f (φ : Formula)
  | g (φ : Formula)
  | u (φ ψ : Formula)
  | r (φ ψ : Formula)
  | a (φ : Formula)
  | e (φ : Formula)

mutual

/-- The `height` attribute of pyModelChecking formula nodes, read once by the
walker at depth 0 (stats.py lines 137-138): an atomic proposition has height
0 and an operator node is one above its tallest child. -/
def Formula.height : Formula → Nat
  | .ap _ => 0
  | .not sub => 1 + heightL sub
  | .and sub => 1 + heightL sub
  | .or sub => 1 + heightL sub
  | .imply sub => 1 + heightL sub
  | .x φ => 1 + φ.height
  | .f φ => 1 + φ.height
  | .g φ => 1 + φ.height
  | .u φ ψ => 1 + max φ.height ψ.height
  | .r φ ψ => 1 + max φ.height ψ.height
  | .a φ => 1 + φ.height
  | .e φ => 1 + φ.height

/-- Height of the tallest formula in a list (0 for the empty list). -/
def heightL : List Formula → Nat
  | [] => 0
  | φ :: rest => max φ.height (heightL rest)

end

/-- The mutable per-formula state of `Stats.analyze_formula`: the AST height
(`self.asth`), the atomic-proposition set (`self.ap`, a Python set modelled
as a duplicate-free list) and the two operator tallies. -/
structure WalkAcc where
  asth : Nat := 0
  ap : List String := []
  lops : Lops := {}
  tops : Tops := {}
deriving DecidableEq, Repr

/-- Python `set.add` on the duplicate-free list model. -/
def setAdd (l : List String) (x : String) : List String :=
  if x ∈ l then l else l ++ [x]

/-- The tally increments of stats.py lines 144-166, one per node kind:
And/Or add (number of children - 1), Imply and Not add exactly 1, and each
temporal operator adds 1.  Atomic propositions do not reach this code. -/
def tallyUpdate (node : Formula) (acc : WalkAcc) : WalkAcc :=
  match node with
  | .ap _ => acc
  | .not _ => { acc with lops := { acc.lops with not := acc.lops.not + 1 } }
  | .and sub => { acc with lops := { acc.lops with and := acc.lops.and + (sub.length - 1) } }
  | .or sub => { acc with lops := { acc.lops with or := acc.lops.or + (sub.length - 1) } }
  | .imply _ => { acc with lops := { acc.lops with impl := acc.lops.impl + 1 } }
  | .x _ => { acc with tops := { acc.tops with X := acc.tops.X + 1 } }
  | .f _ => { acc with tops := { acc.tops with F := acc.tops.F + 1 } }
  | .g _ => { acc with tops := { acc.tops with G := acc.tops.G + 1 } }
  | .u _ _ => { acc with tops := { acc.tops with U := acc.tops.U + 1 } }
  | .r _ _ => { acc with tops := { acc.tops with R := acc.tops.R + 1 } }
  | .a _ => { acc with tops := { acc.tops with A := acc.tops.A + 1 } }
  | .e _ => { acc with tops := { acc.tops with E := acc.tops.E + 1 } }

mutual

/-- `Stats.analyze_formula` (stats.py lines 136-173): record the root height
at level 0; an atomic proposition is added to the proposition set and the
walk stops; any other node applies its tally increment and then the walk
recurses into every subformula at level + 1. -/
def analyze_formula (node : Formula) (level : Nat) (acc : WalkAcc) : WalkAcc :=
  let acc1 := if level = 0 then { acc with asth := node.height } else acc
  match node with
  | .ap s => { acc1 with ap := setAdd acc1.ap s }
  | .not sub => analyze_formula_list sub (level + 1) (tallyUpdate (.not sub) acc1)
  | .and sub => analyze_formula_list sub (level + 1) (tallyUpdate (.and sub) acc1)
  | .or sub => analyze_formula_list sub (level + 1) (tallyUpdate (.or sub) acc1)
  | .imply sub => analyze_formula_list sub (level + 1) (tallyUpdate (.imply sub) acc1)
  | .x φ => analyze_formula φ (level + 1) (tallyUpdate (.x φ) acc1)
  | .f φ => analyze_formula φ (level + 1) (tallyUpdate (.f φ) acc1)
  | .g φ => analyze_formula φ (level + 1) (tallyUpdate (.g φ) acc1)
  | .u φ ψ =>
      analyze_formula ψ (level + 1) (analyze_formula φ (level + 1) (tallyUpdate (.u φ ψ) acc1))
  | .r φ ψ =>
      analyze_formula ψ (level + 1) (analyze_formula φ (level + 1) (tallyUpdate (.r φ ψ) acc1))
  | .a φ => analyze_formula φ (level + 1) (tallyUpdate (.a φ) acc1)
  | .e φ => analyze_formula φ (level + 1) (tallyUpdate (.e φ) acc1)

/-- Iteration over `node._subformula` (stats.py lines 169-171). -/
def analyze_formula_list (nodes : List Formula) (level : Nat) (acc : WalkAcc) : WalkAcc :=
  match nodes with
  | [] => acc
  | φ :: rest => analyze_formula_list rest level (analyze_formula φ level acc)

end

/-! Specification-side node measures for claim C4. -/

/-- What an And node is claimed to contribute: children minus one. -/
def andArity : Formula → Nat
  | .and sub => sub.length - 1
  | _ => 0

/-- What an Or node is claimed to contribute: children minus one. -/
def orArity : Formula → Nat
  | .or sub => sub.length - 1
  | _ => 0

/-- What an Imply node is claimed to contribute: exactly one. -/
def implyUnit : Formula → Nat
  | .imply _ => 1
  | _ => 0

/-- What a Not node is claimed to contribute: exactly one. -/
def notUnit : Formula → Nat
  | .not _ => 1
  | _ => 0

/-- One unit per temporal-operator node (used for claim C5). -/
def temporalUnit : Formula → Nat
  | .x _ => 1
  | .f _ => 1
  | .g _ => 1
  | .u _ _ => 1
  | .r _ _ => 1
  | .a _ => 1
  | .e _ => 1
  | _ => 0

mutual

/-- Sum of a per-node measure over every node of a tree. -/
def nodeSum (m : Formula → Nat) : Formula → Nat
  | .ap s => m (.ap s)
  | .not sub => m (.not sub) + nodeSumL m sub
  | .and sub => m (.and sub) + nodeSumL m sub
  | .or sub => m (.or sub) + nodeSumL m sub
  | .imply sub => m (.imply sub) + nodeSumL m sub
  | .x φ => m (.x φ) + nodeSum m φ
  | .f φ => m (.f φ) + nodeSum m φ
  | .g φ => m (.g φ) + nodeSum m φ
  | .u φ ψ => m (.u φ ψ) + nodeSum m φ + nodeSum m ψ
  | .r φ ψ => m (.r φ ψ) + nodeSum m φ + nodeSum m ψ
  | .a φ => m (.a φ) + nodeSum m φ
  | .e φ => m (.e φ) + nodeSum m φ

/-- Sum of a per-node measure over every node of a list of trees. -/
def nodeSumL (m : Formula → Nat) : List Formula → Nat
  | [] => 0
  | φ :: rest => nodeSum m φ + nodeSumL m rest

end

/-- The temporal tally values in dict insertion order (stats.py lines 49-57). -/
def Tops.values (t : Tops) : List Nat := [t.A, t.E, t.X, t.F, t.G, t.U, t.R]

/-- The logical tally values in dict insertion order (stats.py lines 60-65). -/
def Lops.values (l : Lops) : List Nat := [l.impl, l.and, l.or, l.not]

mutual

/-- Any accumulator field that the per-node tally increments change by a
fixed measure, is changed by the whole walk by the tree sum of the measure. -/
theorem analyze_formula_count (fc : WalkAcc → Nat) (m : Formula → Nat)
    (hasth : ∀ (acc : WalkAcc) (n : Nat), fc { acc with asth := n } = fc acc)
    (hap : ∀ (acc : WalkAcc) (s : String), fc { acc with ap := setAdd acc.ap s } = fc acc)
    (hm_ap : ∀ s, m (.ap s) = 0)
    (hstep : ∀ (node : Formula) (acc : WalkAcc), fc (tallyUpdate node acc) = fc acc + m node)
    (node : Formula) (level : Nat) (acc : WalkAcc) :
    fc (analyze_formula node level acc) = fc acc + nodeSum m node := by
  have hacc1 : ∀ (nd : Formula),
      fc (if level = 0 then { acc with asth := nd.height } else acc) = fc acc := by
    intro nd
    split
    · exact hasth acc nd.height
    · rfl
  cases node with
  | ap s =>
      rw [analyze_formula, hap, hacc1, nodeSum, hm_ap]
      omega
  | not sub =>
      rw [analyze_formula,
        analyze_formula_list_count fc m hasth hap hm_ap hstep sub (level + 1) _,
        hstep, hacc1, nodeSum]
      omega
  | and sub =>
      rw [analyze_formula,
        analyze_formula_list_count fc m hasth hap hm_ap hstep sub (level + 1) _,
        hstep, hacc1, nodeSum]
      omega
  | or sub =>
      rw [analyze_formula,
        analyze_formula_list_count fc m hasth hap hm_ap hstep sub (level + 1) _,
        hstep, hacc1, nodeSum]
      omega
  | imply sub =>
      rw [analyze_formula,
        analyze_formula_list_count fc m hasth hap hm_ap hstep sub (level + 1) _,
        hstep, hacc1, nodeSum]
      omega
  | x φ =>
      rw [analyze_formula, analyze_formula_count fc m hasth hap hm_ap hstep φ (level + 1) _,
        hstep, hacc1, nodeSum]
      omega
  | f φ =>
      rw [analyze_formula, analyze_formula_count fc m hasth hap hm_ap hstep φ (level + 1) _,
        hstep, hacc1, nodeSum]
      omega
  | g φ =>
      rw [analyze_formula, analyze_formula_count fc m hasth hap hm_ap hstep φ (level + 1) _,
        hstep, hacc1, nodeSum]
      omega
  | u φ ψ =>
      rw [analyze_formula, analyze_formula_count fc m hasth hap hm_ap hstep ψ (level + 1) _,
        analyze_formula_count fc m hasth hap hm_ap hstep φ (level + 1) _,
        hstep, hacc1, nodeSum]
      omega
  | r φ ψ =>
      rw [analyze_formula, analyze_formula_count fc m hasth hap hm_ap hstep ψ (level + 1) _,
        analyze_formula_count fc m hasth hap hm_ap hstep φ (level + 1) _,
        hstep, hacc1, nodeSum]
      omega
  | a φ =>
      rw [analyze_formula, analyze_formula_count fc m hasth hap hm_ap hstep φ (level + 1) _,
        hstep, hacc1, nodeSum]
      omega
  | e φ =>
      rw [analyze_formula, analyze_formula_count fc m hasth hap hm_ap hstep φ (level + 1) _,
        hstep, hacc1, nodeSum]
      omega

/-- List version of `analyze_formula_count`. -/
theorem analyze_formula_list_count (fc : WalkAcc → Nat) (m : Formula → Nat)
    (hasth : ∀ (acc : WalkAcc) (n : Nat), fc { acc with asth := n } = fc acc)
    (hap : ∀ (acc : WalkAcc) (s : String), fc { acc with ap := setAdd acc.ap s } = fc acc)
    (hm_ap : ∀ s, m (.ap s) = 0)
    (hstep : ∀ (node : Formula) (acc : WalkAcc), fc (tallyUpdate node acc) = fc acc + m node)
    (nodes : List Formula) (level : Nat) (acc : WalkAcc) :
    fc (analyze_formula_list nodes level acc) = fc acc + nodeSumL m nodes := by
  cases nodes with
  | nil => rw [analyze_formula_list, nodeSumL]; omega
  | cons φ rest =>
      rw [analyze_formula_list,
        analyze_formula_list_count fc m hasth hap hm_ap hstep rest level _,
        analyze_formula_count fc m hasth hap hm_ap hstep φ level acc, nodeSumL]
      omega

end

theorem analyze_lops_and (node : Formula) (level : Nat) (acc : WalkAcc) :
    (analyze_formula node level acc).lops.and = acc.lops.and + nodeSum andArity node :=
  analyze_formula_count (fun w => w.lops.and) andArity (fun _ _ => rfl) (fun _ _ => rfl)
    (fun _ => rfl) (fun nd acc => by cases nd <;> simp [tallyUpdate, andArity])
    node level acc

theorem analyze_lops_or (node : Formula) (level : Nat) (acc : WalkAcc) :
    (analyze_formula node level acc).lops.or = acc.lops.or + nodeSum orArity node :=
  analyze_formula_count (fun w => w.lops.or) orArity (fun _ _ => rfl) (fun _ _ => rfl)
    (fun _ => rfl) (fun nd acc => by cases nd <;> simp [tallyUpdate, orArity])
    node level acc

theorem analyze_lops_impl (node : Formula) (level : Nat) (acc : WalkAcc) :
    (analyze_formula node level acc).lops.impl = acc.lops.impl + nodeSum implyUnit node :=
  analyze_formula_count (fun w => w.lops.impl) implyUnit (fun _ _ => rfl) (fun _ _ => rfl)
    (fun _ => rfl) (fun nd acc => by cases nd <;> simp [tallyUpdate, implyUnit])
    node level acc

theorem analyze_lops_not (node : Formula) (level : Nat) (acc : WalkAcc) :
    (analyze_formula node level acc).lops.not = acc.lops.not + nodeSum notUnit node :=
  analyze_formula_count (fun w => w.lops.not) notUnit (fun _ _ => rfl) (fun _ _ => rfl)
    (fun _ => rfl) (fun nd acc => by cases nd <;> simp [tallyUpdate, notUnit])
    node level acc

theorem analyze_tops_sum (node : Formula) (level : Nat) (acc : WalkAcc) :
    (analyze_formula node level acc).tops.values.sum
      = acc.tops.values.sum + nodeSum temporalUnit node :=
  analyze_formula_count (fun w => w.tops.values.sum) temporalUnit (fun _ _ => rfl)
    (fun _ _ => rfl) (fun _ => rfl)
    (fun nd acc => by cases nd <;> simp [tallyUpdate, temporalUnit, Tops.values] <;> omega)
    node level acc

/-- C4, confirmed.  The walk increments the `and` tally by k-1 for each And
node with k children and the `or` tally by k-1 for each Or node, while each
Imply and each Not node contributes exactly 1 regardless of arity; an n-ary
conjunction of k atomic propositions contributes exactly k-1 to the `and`
tally for k in 2, 3, 4. -/
theorem C4_nary_operator_counting :
    (∀ (node : Formula) (level : Nat) (acc : WalkAcc),
      (analyze_formula node level acc).lops.and = acc.lops.and + nodeSum andArity node ∧
      (analyze_formula node level acc).lops.or = acc.lops.or + nodeSum orArity node ∧
      (analyze_formula node level acc).lops.impl = acc.lops.impl + nodeSum implyUnit node ∧
      (analyze_formula node level acc).lops.not = acc.lops.not + nodeSum notUnit node) ∧
    (analyze_formula (.and [.ap "a", .ap "b"]) 0 {}).lops.and = 1 ∧
    (analyze_formula (.and [.ap "a", .ap "b", .ap "c"]) 0 {}).lops.and = 2 ∧
    (analyze_formula (.and [.ap "a", .ap "b", .ap "c", .ap "d"]) 0 {}).lops.and = 3 := by
  refine ⟨fun node level acc =>
    ⟨analyze_lops_and node level acc, analyze_lops_or node level acc,
     analyze_lops_impl node level acc, analyze_lops_not node level acc⟩, ?_, ?_, ?_⟩
  · rw [analyze_lops_and]
    simp [nodeSum, nodeSumL, andArity]
  · rw [analyze_lops_and]
    simp [nodeSum, nodeSumL, andArity]
  · rw [analyze_lops_and]
    simp [nodeSum, nodeSumL, andArity]

/-! ## The entropy calculator, stats.py lines 183-194 -/

/-- Model of `scipy.stats.entropy(vals, base=2)` on a list of natural-number
frequencies: the list is normalized to probabilities and the base-2 Shannon
entropy is taken, with the convention that a zero count contributes zero.
When the frequencies sum to zero the normalization divides zero by zero and
scipy returns NaN; NaN is modelled as `Option.none`. -/
noncomputable def scipy_entropy (vals : List Nat) : Option ℝ :=
  if vals.sum = 0 then Option.none
  else
    some (-((vals.map (fun k : Nat =>
        if k = 0 then (0 : ℝ)
        else ((k : ℝ) / (vals.sum : ℝ)) * Real.logb 2 ((k : ℝ) / (vals.sum : ℝ)))).sum))

/-- The result record of `Stats.calc_entropy` (stats.py lines 190-194). -/
structure EntropyTriple where
  lops : Option ℝ
  tops : Option ℝ
  lops_tops : Option ℝ

/-- `Stats.calc_entropy` (stats.py lines 183-194), with the keys exactly as
the source assigns them: `entr_tops` (the entropy of the temporal tally) is
stored under the key `lops`, `entr_lops` under the key `tops`, and the
`lops_tops` entry is computed from `tops.copy()` updated with `lops` — the
two key sets are disjoint, so the merged value list is the concatenation of
the two value lists in insertion order. -/
noncomputable def calc_entropy (tops : Tops) (lops : Lops) : EntropyTriple :=
  let entr_tops := scipy_entropy tops.values
  let entr_lops := scipy_entropy lops.values
  let entr_tops_lops := scipy_entropy (tops.values ++ lops.values)
  { lops := entr_tops, tops := entr_lops, lops_tops := entr_tops_lops }

/-- C5, counterexample.  A tally whose counts are all zero is mapped to NaN
(modelled `Option.none`), not to the entropy value 0: scipy divides by the
zero sum.  In particular the non-empty formula `p and q` has an all-zero
temporal tally, and the entropy slot computed from it holds NaN. -/
theorem C5_counterexample :
    (analyze_formula (.and [.ap "p", .ap "q"]) 0 {}).tops = {} ∧
    ({} : Tops).values.sum = 0 ∧
    scipy_entropy (({} : Tops).values) = Option.none ∧
    (Option.none : Option ℝ) ≠ some 0 := by
  refine ⟨rfl, rfl, ?_, by simp⟩
  simp [scipy_entropy, Tops.values]

/-- C5, amended.  The entropy calculator maps a tally whose counts are all
zero to NaN (`Option.none`), not to 0; in particular, for every formula with
no temporal operators the temporal-tally entropy slot of the triple holds
NaN. -/
theorem C5_zero_tally_amended (tops : Tops) (lops : Lops) (node : Formula) (level : Nat)
    (h : tops.values.sum = 0) (hn : nodeSum temporalUnit node = 0) :
    (calc_entropy tops lops).lops = Option.none ∧
    (analyze_formula node level {}).tops.values.sum = 0 ∧
    (calc_entropy (analyze_formula node level {}).tops
        (analyze_formula node level {}).lops).lops = Option.none := by
  have hsum : (analyze_formula node level {}).tops.values.sum = 0 := by
    rw [analyze_tops_sum, hn]
    rfl
  refine ⟨?_, hsum, ?_⟩
  · simp [calc_entropy, scipy_entropy, h]
  · simp [calc_entropy, scipy_entropy, hsum]

theorem C5_zero_tally_amended_witness :
    (({} : Tops).values.sum = 0 ∧ nodeSum temporalUnit (.and [.ap "p", .ap "q"]) = 0) ∧
    ((calc_entropy {} {}).lops = Option.none ∧
     (analyze_formula (.and [.ap "p", .ap "q"]) 0 {}).tops.values.sum = 0 ∧
     (calc_entropy (analyze_formula (.and [.ap "p", .ap "q"]) 0 {}).tops
        (analyze_formula (.and [.ap "p", .ap "q"]) 0 {}).lops).lops = Option.none) :=
  ⟨⟨rfl, by simp [nodeSum, nodeSumL, temporalUnit]⟩,
   C5_zero_tally_amended {} {} (.and [.ap "p", .ap "q"]) 0 rfl
     (by simp [nodeSum, nodeSumL, temporalUnit])⟩

/-- C9, confirmed.  `calc_entropy` stores the Shannon entropy of the temporal
tally under the key `lops` and the entropy of the logical tally under the key
`tops` — the two labels are swapped relative to the distributions they
summarize — while `lops_tops` is the entropy of the merged temporal-plus-
logical tally.  The swap is observable: for the analyzed formula `p and q`
the `lops` slot differs from the logical tally's own entropy (it is NaN,
coming from the all-zero temporal tally, while the logical tally's entropy
is defined). -/
theorem C9_entropy_label_swap :
    (∀ (tops : Tops) (lops : Lops),
      (calc_entropy tops lops).lops = scipy_entropy tops.values ∧
      (calc_entropy tops lops).tops = scipy_entropy lops.values ∧
      (calc_entropy tops lops).lops_tops = scipy_entropy (tops.values ++ lops.values)) ∧
    (calc_entropy (analyze_formula (.and [.ap "p", .ap "q"]) 0 {}).tops
        (analyze_formula (.and [.ap "p", .ap "q"]) 0 {}).lops).lops
      ≠ scipy_entropy ((analyze_formula (.and [.ap "p", .ap "q"]) 0 {}).lops).values := by
  refine ⟨fun tops lops => ⟨rfl, rfl, rfl⟩, ?_⟩
  have h1 : (analyze_formula (.and [.ap "p", .ap "q"]) 0 {}).tops = {} := rfl
  have h2 : (analyze_formula (.and [.ap "p", .ap "q"]) 0 {}).lops = { and := 1 } := rfl
  rw [show (calc_entropy (analyze_formula (.and [.ap "p", .ap "q"]) 0 {}).tops
        (analyze_formula (.and [.ap "p", .ap "q"]) 0 {}).lops).lops
      = scipy_entropy ((analyze_formula (.and [.ap "p", .ap "q"]) 0 {}).tops).values from rfl,
    h1, h2]
  simp [scipy_entropy, Tops.values, Lops.values]

/-! ## Python string helpers for the spot_tools model -/

/-- Python whitespace characters (ASCII range of `str.strip`, `str.split`
and re `\s`). -/
def isPySpace (c : Char) : Bool :=
  c = ' ' ∨ c = '\t' ∨ c = '\n' ∨ c = '\x0d' ∨ c = '\x0b' ∨ c = '\x0c'

/-- Python `str.strip()`. -/
def pyStrip (s : String) : String :=
  String.mk (((s.toList.dropWhile isPySpace).reverse.dropWhile isPySpace).reverse)

/-- Worker of `pySplit`: accumulates the current (reversed) word. -/
def pySplitGo : List Char → List Char → List String
  | [], acc => if acc.isEmpty then [] else [String.mk acc.reverse]
  | c :: rest, acc =>
    if isPySpace c then
      if acc.isEmpty then pySplitGo rest []
      else String.mk acc.reverse :: pySplitGo rest []
    else pySplitGo rest (c :: acc)

/-- Python `str.split()` with no arguments: split on whitespace runs,
dropping empty pieces. -/
def pySplit (s : String) : List String := pySplitGo s.toList []

/-- Python `sep.join(parts)`. -/
def pyJoin (sep : String) : List String → String
  | [] => ""
  | [x] => x
  | x :: rest => x ++ sep ++ pyJoin sep rest

/-- Is `pat` an initial segment of `l`? -/
def listStarts : List Char → List Char → Bool
  | [], _ => true
  | _ :: _, [] => false
  | p :: ps, c :: cs => p = c && listStarts ps cs

/-- Substring containment (Python `pat in s` on character lists). -/
def containsSub (pat : List Char) : List Char → Bool
  | [] => listStarts pat []
  | c :: rest => listStarts pat (c :: rest) || containsSub pat rest

/-- Decimal digits to a natural number. -/
def digitsToNat (l : List Char) : Nat :=
  l.foldl (fun a c => a * 10 + (c.toNat - ('0').toNat)) 0

/-- Model of Python `int(s)` restricted to optionally signed decimal digit
strings with surrounding whitespace (all that the tool outputs modelled here
can contain); anything else raises `ValueError`, modelled `Option.none`. -/
def pyInt? (s : String) : Option Int :=
  match (pyStrip s).toList with
  | '-' :: ds =>
      if ds ≠ [] ∧ ds.all Char.isDigit then some (-(digitsToNat ds : Int)) else Option.none
  | '+' :: ds =>
      if ds ≠ [] ∧ ds.all Char.isDigit then some (digitsToNat ds) else Option.none
  | ds =>
      if ds ≠ [] ∧ ds.all Char.isDigit then some (digitsToNat ds) else Option.none

/-! ## spot_tools.py: the external toolchain protocol -/

/-- Scalar Python values stored in the result dictionaries. -/
inductive PyVal where
  | int (n : Int)
  | bool (b : Bool)
  | str (s : String)
  | pynone
deriving DecidableEq, Repr

/-- Outcome of one subprocess: the executable is missing from the PATH, or
it runs and produces a return code, stdout and stderr. -/
inductive Proc where
  | missing
  | run (returncode : Int) (stdout stderr : String)

/-- The modelled execution environment: what each command-line invocation
(command list plus optional standard input) produces.  This is the exact
boundary at which spot_tools talks to the operating system via
`subprocess.Popen`. -/
structure SpotEnv where
  run : List String → Option String → Proc

/-- Result of `spot_tools.invoke`: a normal return, a raised
`CalledProcessError` (return code, command, stdout, stderr), or a raised
`FileNotFoundError`. -/
inductive InvokeOut where
  | ok (out : String)
  | cpe (returncode : Int) (cmd : List String) (output stderr : String)
  | fnf (tool : String)
deriving DecidableEq, Repr

/-- spot_tools lines 90-137, `invoke`: a missing executable raises
`FileNotFoundError`; a non-zero exit is special-cased for the filter tools
(`ltlfilt` without `--format=` in the command line, or `autfilt`, exit code
1 with empty stdout and stderr — meaning no match) to return the empty
string, and otherwise raises `CalledProcessError`; a zero exit returns the
stripped stdout. -/
def invoke (env : SpotEnv) (command : List String) (input_data : Option String) : InvokeOut :=
  match env.run command input_data with
  | .missing => .fnf (command.headD "")
  | .run returncode stdout stderr =>
    if returncode ≠ 0 then
      let cmd_str := pyJoin " " command
      let is_filter_no_match :=
        (command.headD "" = "ltlfilt" ∧ returncode = 1
          ∧ containsSub ("--format=".toList) cmd_str.toList = false)
        ∨ (command.headD "" = "autfilt" ∧ returncode = 1)
      if is_filter_no_match ∧ stderr = "" ∧ stdout = "" then .ok ""
      else .cpe returncode command stdout stderr
    else .ok (pyStrip stdout)

/-- Python `repr` of a list of strings (the strings occurring here need no
escaping). -/
def pyListRepr (l : List String) : String :=
  "[" ++ pyJoin ", " (l.map (fun s => "\x27" ++ s ++ "\x27")) ++ "]"

/-- `str(e)` for `subprocess.CalledProcessError(rc, cmd, ..)` with a
positive return code (negative codes mean death by a signal and do not occur
in this model). -/
def cpe_str (returncode : Int) (cmd : List String) : String :=
  "Command \x27" ++ pyListRepr cmd ++ "\x27 returned non-zero exit status "
    ++ toString returncode ++ "."

/-- The message of the `ValueError` raised by `int()` (the repr of the
offending string approximated with plain quotes). -/
def intErrMsg (s : String) : String :=
  "invalid literal for int() with base 10: \x27" ++ s ++ "\x27"

/-- A Python dict holding automaton statistics.  The source only ever uses
the fixed key set below, so the dict is modelled as a record of optional
values; `Option.none` means the key is absent from the dict. -/
structure AnalysisDict where
  state_count : Option PyVal := Option.none
  transition_count : Option PyVal := Option.none
  is_complete : Option PyVal := Option.none
  is_deterministic : Option PyVal := Option.none
  acceptance_sets : Option PyVal := Option.none
  is_stutter_invariant : Option PyVal := Option.none
  analysis_source : Option PyVal := Option.none
  analysis_error : Option PyVal := Option.none
  error : Option PyVal := Option.none
deriving DecidableEq, Repr

/-- A Python exception escaping the spot_tools functions. -/
inductive PyErr where
  | fileNotFound (tool : String)
  | valueError
deriving DecidableEq, Repr

/-- The `--stats` format argument of spot_tools line 165. -/
def statsFormat : String := "--stats=%s %t %p %d %a"

/-- spot_tools lines 140-179, `get_automaton_and_stats`: translate the
formula with `ltl2tgba` (the `require_spot` call on line 145 only prints a
warning and is not modelled); a translation failure yields an empty
automaton and an error dict; otherwise query the direct `--stats` line and
parse its five fields, any stats failure (invocation error, wrong field
count, or `int()` failure — the dict keeps the fields assigned before the
failing conversion) producing an `error` entry instead.  A missing
executable propagates as `FileNotFoundError` (it is not caught here). -/
def get_automaton_and_stats (env : SpotEnv) (ltl_formula : String)
    (to_buchi to_deterministic : Bool) : Except PyErr (String × AnalysisDict) :=
  let cmd_base := ["ltl2tgba", "-f", ltl_formula]
      ++ (if to_buchi then ["-B"] else []) ++ (if to_deterministic then ["-D"] else [])
  match invoke env cmd_base Option.none with
  | .fnf t => .error (.fileNotFound t)
  | .cpe rc cmd _ _ => .ok ("", { error := some (.str (cpe_str rc cmd)) })
  | .ok hoa_automaton =>
    match invoke env (cmd_base ++ [statsFormat]) Option.none with
    | .fnf t => .error (.fileNotFound t)
    | .cpe rc cmd _ _ =>
        .ok (hoa_automaton,
          { error := some (.str ("Failed to get direct stats from ltl2tgba: "
                                  ++ cpe_str rc cmd)) })
    | .ok stats_output =>
      match pySplit stats_output with
      | [p0, p1, p2, p3, p4] =>
        match pyInt? p0 with
        | Option.none =>
            .ok (hoa_automaton,
              { error := some (.str ("Failed to get direct stats from ltl2tgba: "
                                      ++ intErrMsg p0)) })
        | some n0 =>
          match pyInt? p1 with
          | Option.none =>
              .ok (hoa_automaton,
                { state_count := some (.int n0),
                  error := some (.str ("Failed to get direct stats from ltl2tgba: "
                                        ++ intErrMsg p1)) })
          | some n1 =>
            match pyInt? p4 with
            | Option.none =>
                .ok (hoa_automaton,
                  { state_count := some (.int n0), transition_count := some (.int n1),
                    is_complete := some (.bool (p2 = "1")),
                    is_deterministic := some (.bool (p3 = "1")),
                    error := some (.str ("Failed to get direct stats from ltl2tgba: "
                                          ++ intErrMsg p4)) })
            | some n4 =>
                .ok (hoa_automaton,
                  { state_count := some (.int n0), transition_count := some (.int n1),
                    is_complete := some (.bool (p2 = "1")),
                    is_deterministic := some (.bool (p3 = "1")),
                    acceptance_sets := some (.int n4),
                    analysis_source := some (.str "ltl2tgba_stats") })
      | _ =>
          .ok (hoa_automaton,
            { error := some (.str "Unexpected stats output format from ltl2tgba.") })

/-- The dictionary `analyze_automaton_fallback` returns for an empty or
malformed HOA input (spot_tools lines 189-197): every statistic and property
field holds the explicit `Error` marker and `analysis_error` explains why. -/
def allErrorDict : AnalysisDict :=
  { is_deterministic := some (.str "Error"), is_complete := some (.str "Error"),
    state_count := some (.str "Error"), transition_count := some (.str "Error"),
    acceptance_sets := some (.str "Error"), is_stutter_invariant := some (.str "Error"),
    analysis_error := some (.str "Empty or malformed HOA input for autfilt fallback") }

/-- spot_tools lines 182-228, `analyze_automaton_fallback`: an empty (or
whitespace-only) HOA input yields the all-Error dictionary with an
`analysis_error` entry; otherwise the three properties and three statistics
are each queried from `autfilt`, any per-query failure (including a missing
executable, which is caught here) becoming the `Error` marker for just that
field. -/
def analyze_automaton_fallback (env : SpotEnv) (hoa_automaton : String) : AnalysisDict :=
  if pyStrip hoa_automaton = "" then allErrorDict
  else
    let get_stat_int : String → PyVal := fun stat_flag =>
      match invoke env ["autfilt", "--stats=" ++ stat_flag] (some hoa_automaton) with
      | .ok output =>
          match pyInt? output with
          | some n => .int n
          | Option.none => .str "Error"
      | .cpe _ _ _ _ => .str "Error"
      | .fnf _ => .str "Error"
    let check_property_by_output : String → PyVal := fun prop_flag =>
      match invoke env ["autfilt", prop_flag] (some hoa_automaton) with
      | .ok output => .bool (output ≠ "")
      | .cpe _ _ _ _ => .str "Error"
      | .fnf _ => .str "Error"
    { is_deterministic := some (check_property_by_output "--is-deterministic"),
      is_complete := some (check_property_by_output "--is-complete"),
      is_stutter_invariant := some (check_property_by_output "--is-stutter-invariant"),
      state_count := some (get_stat_int "s"),
      transition_count := some (get_stat_int "t"),
      acceptance_sets := some (get_stat_int "c"),
      analysis_source := some (.str "autfilt_fallback") }

/-- spot_tools lines 231-270, `check_ltl_property_type`: an unknown check
type raises `ValueError`; otherwise `ltlfilt` is invoked with the mapped
flag, a successful run answering by output presence and every caught failure
(invocation error, missing tool, anything else) yielding the `Error`
marker. -/
def check_ltl_property_type (env : SpotEnv) (ltl_formula check_type : String) :
    Except PyErr PyVal :=
  let flag? := if check_type = "syntactic_safety" then some "--syntactic-safety"
               else if check_type = "stutter_invariant" then some "--stutter-invariant"
               else Option.none
  match flag? with
  | Option.none => .error .valueError
  | some flag =>
    match invoke env ["ltlfilt", "-f", ltl_formula, flag] Option.none with
    | .ok output => .ok (.bool (output.length > 0))
    | .cpe _ _ _ _ => .ok (.str "Error")
    | .fnf _ => .ok (.str "Error")

/-- spot_tools lines 273-300, `get_manna_pnueli_class`: query `ltlfilt` with
the hierarchy format; an empty or unexpanded result yields the format-issue
marker, and every caught failure yields the `Error` marker. -/
def get_manna_pnueli_class (env : SpotEnv) (ltl_formula : String) : PyVal :=
  match invoke env ["ltlfilt", "-f", ltl_formula, "--format=%[vw]h"] Option.none with
  | .ok output =>
      let result := pyStrip output
      if result = "" ∨ listStarts ("%[".toList) result.toList then
        .str "Unclassified/Error (Format Issue)"
      else .str result
  | .cpe _ _ _ _ => .str "Error"
  | .fnf _ => .str "Error"

/-- The `deterministic_attempt` sub-dictionary of the classification
(spot_tools line 316): `success` starts as Python `None`, the nested
analysis as the empty dict, and the `error` key is only ever added on the
failure path. -/
structure DetAttempt where
  success : PyVal := .pynone
  automaton_analysis : AnalysisDict := {}
  error : Option PyVal := Option.none
deriving DecidableEq, Repr

/-- The classification dictionary built by `classify_ltl_property`
(spot_tools lines 309-317).  The `spot_formula` key is absent here; it is
added later by the SpotAnalyzer layer (stats_ext.py line 98). -/
structure Classification where
  formula : String
  syntactic_safety : PyVal := .pynone
  is_stutter_invariant_formula : PyVal := .pynone
  manna_pnueli_class : PyVal := .str "Unknown"
  tgba_analysis : AnalysisDict := {}
  buchi_analysis : AnalysisDict := {}
  deterministic_attempt : DetAttempt := {}
  spot_formula : Option String := Option.none
deriving DecidableEq, Repr

/-- The stutter-invariance flag obtained from the fallback analyzer on the
direct-statistics path (spot_tools lines 341-346, 357-362, 377-382; the
`dict.get` default `None` can never fire because the fallback dict always
carries the key). -/
def fallbackStutter (env : SpotEnv) (hoa : String) : PyVal :=
  ((analyze_automaton_fallback env hoa).is_stutter_invariant).getD .pynone

/-- spot_tools lines 303-387, `classify_ltl_property` (the verbose plumbing
of lines 304-306 and 385-387 only toggles debug printing and is not
modelled).  For the unrestricted and Büchi variants, an `error` entry in the
direct stats dict routes the variant to the `autfilt` fallback on whatever
automaton text was produced; on the direct path the stutter-invariance flag
is still taken from the fallback analyzer.  For the deterministic variant
there is no fallback: an `error` entry makes `success` False and copies the
error text, leaving the nested analysis dict empty, and otherwise `success`
is True and the nested analysis is the direct stats plus the fallback
stutter flag. -/
def classify_ltl_property (env : SpotEnv) (ltl_formula : String) :
    Except PyErr Classification :=
  match check_ltl_property_type env ltl_formula "syntactic_safety" with
  | .error e => .error e
  | .ok syn =>
  match check_ltl_property_type env ltl_formula "stutter_invariant" with
  | .error e => .error e
  | .ok stut =>
  let manna := get_manna_pnueli_class env ltl_formula
  match get_automaton_and_stats env ltl_formula false false with
  | .error e => .error e
  | .ok (hoa_tgba, tgba_stats) =>
  match get_automaton_and_stats env ltl_formula true false with
  | .error e => .error e
  | .ok (hoa_buchi, buchi_stats) =>
  match get_automaton_and_stats env ltl_formula false true with
  | .error e => .error e
  | .ok (hoa_deterministic, deterministic_stats) =>
  let tgba_analysis :=
    if tgba_stats.error.isSome then analyze_automaton_fallback env hoa_tgba
    else { tgba_stats with is_stutter_invariant := some (fallbackStutter env hoa_tgba) }
  let buchi_analysis :=
    if buchi_stats.error.isSome then analyze_automaton_fallback env hoa_buchi
    else { buchi_stats with is_stutter_invariant := some (fallbackStutter env hoa_buchi) }
  let det_attempt : DetAttempt :=
    if deterministic_stats.error.isSome then
      { success := .bool false, automaton_analysis := {},
        error := deterministic_stats.error }
    else
      { success := .bool true,
        automaton_analysis := { deterministic_stats with
          is_stutter_invariant := some (fallbackStutter env hoa_deterministic) },
        error := Option.none }
  .ok { formula := ltl_formula, syntactic_safety := syn,
        is_stutter_invariant_formula := stut, manna_pnueli_class := manna,
        tgba_analysis := tgba_analysis, buchi_analysis := buchi_analysis,
        deterministic_attempt := det_attempt }

/-! ## Decomposition of the classification into per-variant computations -/

/-- The analysis dictionary classify_ltl_property stores for the
unrestricted (`to_buchi = to_det = false`) or Büchi (`to_buchi = true`)
variant, expressed as a function of that variant's own toolchain queries
alone (spot_tools lines 333-362). -/
def variant_analysis (env : SpotEnv) (φ : String) (to_buchi to_det : Bool) :
    Except PyErr AnalysisDict :=
  match get_automaton_and_stats env φ to_buchi to_det with
  | .error e => .error e
  | .ok (hoa, stats) =>
      .ok (if stats.error.isSome then analyze_automaton_fallback env hoa
           else { stats with is_stutter_invariant := some (fallbackStutter env hoa) })

/-- The deterministic attempt, expressed as a function of its own toolchain
queries alone (spot_tools lines 364-382). -/
def det_attempt_of (env : SpotEnv) (φ : String) : Except PyErr DetAttempt :=
  match get_automaton_and_stats env φ false true with
  | .error e => .error e
  | .ok (hoa, stats) =>
      .ok (if stats.error.isSome then
             { success := .bool false, automaton_analysis := {}, error := stats.error }
           else
             { success := .bool true,
               automaton_analysis :=
                 { stats with is_stutter_invariant := some (fallbackStutter env hoa) },
               error := Option.none })

/-- A successful classification decomposes field by field: each field is
computed only from its own variant's (or property check's) toolchain
queries. -/
theorem classify_fields (env : SpotEnv) (φ : String) (c : Classification)
    (hc : classify_ltl_property env φ = .ok c) :
    c.formula = φ ∧
    check_ltl_property_type env φ "syntactic_safety" = .ok c.syntactic_safety ∧
    check_ltl_property_type env φ "stutter_invariant" = .ok c.is_stutter_invariant_formula ∧
    c.manna_pnueli_class = get_manna_pnueli_class env φ ∧
    variant_analysis env φ false false = .ok c.tgba_analysis ∧
    variant_analysis env φ true false = .ok c.buchi_analysis ∧
    det_attempt_of env φ = .ok c.deterministic_attempt ∧
    c.spot_formula = Option.none := by
  unfold classify_ltl_property at hc
  cases h1 : check_ltl_property_type env φ "syntactic_safety" with
  | error e => rw [h1] at hc; exact absurd hc (by simp)
  | ok syn =>
  rw [h1] at hc
  cases h2 : check_ltl_property_type env φ "stutter_invariant" with
  | error e => rw [h2] at hc; exact absurd hc (by simp)
  | ok stut =>
  rw [h2] at hc
  cases h3 : get_automaton_and_stats env φ false false with
  | error e => rw [h3] at hc; exact absurd hc (by simp)
  | ok p3 =>
  obtain ⟨hoa_t, stats_t⟩ := p3
  rw [h3] at hc
  cases h4 : get_automaton_and_stats env φ true false with
  | error e => rw [h4] at hc; exact absurd hc (by simp)
  | ok p4 =>
  obtain ⟨hoa_b, stats_b⟩ := p4
  rw [h4] at hc
  cases h5 : get_automaton_and_stats env φ false true with
  | error e => rw [h5] at hc; exact absurd hc (by simp)
  | ok p5 =>
  obtain ⟨hoa_d, stats_d⟩ := p5
  rw [h5] at hc
  simp only [Except.ok.injEq] at hc
  subst hc
  refine ⟨rfl, ?_, ?_, rfl, ?_, ?_, ?_, rfl⟩
  · rfl
  · rfl
  · unfold variant_analysis
    rw [h3]
  · unfold variant_analysis
    rw [h4]
  · unfold det_attempt_of
    rw [h5]

/-! ## Frame lemmas: each variant only consults its own commands -/

theorem ne_of_proj {α β : Type} (g : α → β) (x y : α) (h : g x ≠ g y) : x ≠ y :=
  fun hE => h (by rw [hE])

theorem invoke_congr (e1 e2 : SpotEnv) (cmd : List String) (inp : Option String)
    (h : e2.run cmd inp = e1.run cmd inp) : invoke e2 cmd inp = invoke e1 cmd inp := by
  unfold invoke
  rw [h]

/-- The base translator command of one automaton variant (`cmd_base` of
`get_automaton_and_stats`); the statistics command of a variant is
`variantCmd ... ++ [statsFormat]`. -/
def variantCmd (φ : String) (b d : Bool) : List String :=
  ["ltl2tgba", "-f", φ] ++ (if b then ["-B"] else []) ++ (if d then ["-D"] else [])

/-- Agreement outside the two translator commands of one variant implies
agreement on every command that is not an `ltl2tgba` invocation at all. -/
theorem agree_of_head_ne (e1 e2 : SpotEnv) (φ : String) (b0 d0 : Bool)
    (hagree : ∀ cmd inp, cmd ≠ variantCmd φ b0 d0
        → cmd ≠ variantCmd φ b0 d0 ++ [statsFormat] → e2.run cmd inp = e1.run cmd inp) :
    ∀ cmd inp, cmd.headD "" ≠ "ltl2tgba" → e2.run cmd inp = e1.run cmd inp := by
  intro cmd inp hh
  refine hagree cmd inp ?_ ?_
  · exact ne_of_proj (fun l => l.headD "") _ _ (fun hE => hh (hE.trans rfl))
  · exact ne_of_proj (fun l => l.headD "") _ _ (fun hE => hh (hE.trans rfl))

theorem fallback_congr (e1 e2 : SpotEnv)
    (hhead : ∀ cmd inp, cmd.headD "" ≠ "ltl2tgba" → e2.run cmd inp = e1.run cmd inp)
    (hoa : String) :
    analyze_automaton_fallback e2 hoa = analyze_automaton_fallback e1 hoa := by
  have key : ∀ (flag : String) (inp : Option String),
      invoke e2 ["autfilt", flag] inp = invoke e1 ["autfilt", flag] inp := by
    intro flag inp
    exact invoke_congr e1 e2 _ _ (hhead _ _ (by simp))
  unfold analyze_automaton_fallback
  simp only [key]

theorem fallbackStutter_congr (e1 e2 : SpotEnv)
    (hhead : ∀ cmd inp, cmd.headD "" ≠ "ltl2tgba" → e2.run cmd inp = e1.run cmd inp)
    (hoa : String) :
    fallbackStutter e2 hoa = fallbackStutter e1 hoa := by
  unfold fallbackStutter
  rw [fallback_congr e1 e2 hhead hoa]

theorem get_automaton_congr (e1 e2 : SpotEnv) (φ : String) (b d : Bool) (A B : List String)
    (hagree : ∀ cmd inp, cmd ≠ A → cmd ≠ B → e2.run cmd inp = e1.run cmd inp)
    (hne1 : variantCmd φ b d ≠ A) (hne2 : variantCmd φ b d ≠ B)
    (hne3 : variantCmd φ b d ++ [statsFormat] ≠ A)
    (hne4 : variantCmd φ b d ++ [statsFormat] ≠ B) :
    get_automaton_and_stats e2 φ b d = get_automaton_and_stats e1 φ b d := by
  unfold variantCmd at hne1 hne2 hne3 hne4
  unfold get_automaton_and_stats
  simp only []
  rw [invoke_congr e1 e2 _ Option.none (hagree _ _ hne1 hne2),
      invoke_congr e1 e2 _ Option.none (hagree _ _ hne3 hne4)]

theorem check_congr (e1 e2 : SpotEnv) (φ ct : String)
    (hhead : ∀ cmd inp, cmd.headD "" ≠ "ltl2tgba" → e2.run cmd inp = e1.run cmd inp) :
    check_ltl_property_type e2 φ ct = check_ltl_property_type e1 φ ct := by
  have key : ∀ (flag : String) (inp : Option String),
      invoke e2 ["ltlfilt", "-f", φ, flag] inp = invoke e1 ["ltlfilt", "-f", φ, flag] inp := by
    intro flag inp
    exact invoke_congr e1 e2 _ _ (hhead _ _ (by simp))
  unfold check_ltl_property_type
  simp only [key]

theorem manna_congr (e1 e2 : SpotEnv) (φ : String)
    (hhead : ∀ cmd inp, cmd.headD "" ≠ "ltl2tgba" → e2.run cmd inp = e1.run cmd inp) :
    get_manna_pnueli_class e2 φ = get_manna_pnueli_class e1 φ := by
  unfold get_manna_pnueli_class
  rw [invoke_congr e1 e2 _ Option.none (hhead _ _ (by simp))]

theorem variant_congr (e1 e2 : SpotEnv) (φ : String) (b d : Bool)
    (hhead : ∀ cmd inp, cmd.headD "" ≠ "ltl2tgba" → e2.run cmd inp = e1.run cmd inp)
    (hga : get_automaton_and_stats e2 φ b d = get_automaton_and_stats e1 φ b d) :
    variant_analysis e2 φ b d = variant_analysis e1 φ b d := by
  unfold variant_analysis
  rw [hga]
  simp only [fallback_congr e1 e2 hhead, fallbackStutter_congr e1 e2 hhead]

theorem det_attempt_congr (e1 e2 : SpotEnv) (φ : String)
    (hhead : ∀ cmd inp, cmd.headD "" ≠ "ltl2tgba" → e2.run cmd inp = e1.run cmd inp)
    (hga : get_automaton_and_stats e2 φ false true = get_automaton_and_stats e1 φ false true) :
    det_attempt_of e2 φ = det_attempt_of e1 φ := by
  unfold det_attempt_of
  rw [hga]
  simp only [fallbackStutter_congr e1 e2 hhead]

/-- The per-variant computations of a classification are insensitive to the
responses of the two translator commands of any one variant (b0, d0): the
property checks, the Manna-Pnueli query, and the analysis of every other
variant are unchanged when only those two commands change. -/
theorem classify_frame (e1 e2 : SpotEnv) (φ : String) (b0 d0 : Bool)
    (hbd : (b0 = false ∧ d0 = false) ∨ (b0 = true ∧ d0 = false) ∨ (b0 = false ∧ d0 = true))
    (hagree : ∀ cmd inp, cmd ≠ variantCmd φ b0 d0
        → cmd ≠ variantCmd φ b0 d0 ++ [statsFormat] → e2.run cmd inp = e1.run cmd inp) :
    check_ltl_property_type e2 φ "syntactic_safety"
      = check_ltl_property_type e1 φ "syntactic_safety" ∧
    check_ltl_property_type e2 φ "stutter_invariant"
      = check_ltl_property_type e1 φ "stutter_invariant" ∧
    get_manna_pnueli_class e2 φ = get_manna_pnueli_class e1 φ ∧
    (¬ (b0 = false ∧ d0 = false) →
        variant_analysis e2 φ false false = variant_analysis e1 φ false false) ∧
    (¬ (b0 = true ∧ d0 = false) →
        variant_analysis e2 φ true false = variant_analysis e1 φ true false) ∧
    (¬ (b0 = false ∧ d0 = true) → det_attempt_of e2 φ = det_attempt_of e1 φ) := by
  have hhead := agree_of_head_ne e1 e2 φ b0 d0 hagree
  refine ⟨check_congr e1 e2 φ _ hhead, check_congr e1 e2 φ _ hhead,
    manna_congr e1 e2 φ hhead, ?_, ?_, ?_⟩
  · intro hne
    refine variant_congr e1 e2 φ false false hhead
      (get_automaton_congr e1 e2 φ false false _ _ hagree ?_ ?_ ?_ ?_)
    all_goals rcases hbd with ⟨hb, hd⟩ | ⟨hb, hd⟩ | ⟨hb, hd⟩
    · exact absurd ⟨hb, hd⟩ hne
    · subst hb; subst hd
      exact ne_of_proj List.length _ _ (by simp [variantCmd])
    · subst hb; subst hd
      exact ne_of_proj List.length _ _ (by simp [variantCmd])
    · exact absurd ⟨hb, hd⟩ hne
    · subst hb; subst hd
      exact ne_of_proj List.length _ _ (by simp [variantCmd])
    · subst hb; subst hd
      exact ne_of_proj List.length _ _ (by simp [variantCmd])
    · exact absurd ⟨hb, hd⟩ hne
    · subst hb; subst hd
      exact ne_of_proj (fun l => l.getD 3 "") _ _ (by simp [variantCmd, List.getD, statsFormat])
    · subst hb; subst hd
      exact ne_of_proj (fun l => l.getD 3 "") _ _ (by simp [variantCmd, List.getD, statsFormat])
    · exact absurd ⟨hb, hd⟩ hne
    · subst hb; subst hd
      exact ne_of_proj List.length _ _ (by simp [variantCmd])
    · subst hb; subst hd
      exact ne_of_proj List.length _ _ (by simp [variantCmd])
  · intro hne
    refine variant_congr e1 e2 φ true false hhead
      (get_automaton_congr e1 e2 φ true false _ _ hagree ?_ ?_ ?_ ?_)
    all_goals rcases hbd with ⟨hb, hd⟩ | ⟨hb, hd⟩ | ⟨hb, hd⟩
    · subst hb; subst hd
      exact ne_of_proj List.length _ _ (by simp [variantCmd])
    · exact absurd ⟨hb, hd⟩ hne
    · subst hb; subst hd
      exact ne_of_proj (fun l => l.getD 3 "") _ _ (by simp [variantCmd, List.getD, statsFormat])
    · subst hb; subst hd
      exact ne_of_proj (fun l => l.getD 3 "") _ _ (by simp [variantCmd, List.getD, statsFormat])
    · exact absurd ⟨hb, hd⟩ hne
    · subst hb; subst hd
      exact ne_of_proj List.length _ _ (by simp [variantCmd])
    · subst hb; subst hd
      exact ne_of_proj List.length _ _ (by simp [variantCmd])
    · exact absurd ⟨hb, hd⟩ hne
    · subst hb; subst hd
      exact ne_of_proj List.length _ _ (by simp [variantCmd])
    · subst hb; subst hd
      exact ne_of_proj (fun l => l.getD 3 "") _ _ (by simp [variantCmd, List.getD, statsFormat])
    · exact absurd ⟨hb, hd⟩ hne
    · subst hb; subst hd
      exact ne_of_proj (fun l => l.getD 3 "") _ _ (by simp [variantCmd, List.getD, statsFormat])
  · intro hne
    refine det_attempt_congr e1 e2 φ hhead
      (get_automaton_congr e1 e2 φ false true _ _ hagree ?_ ?_ ?_ ?_)
    all_goals rcases hbd with ⟨hb, hd⟩ | ⟨hb, hd⟩ | ⟨hb, hd⟩
    · subst hb; subst hd
      exact ne_of_proj List.length _ _ (by simp [variantCmd])
    · subst hb; subst hd
      exact ne_of_proj (fun l => l.getD 3 "") _ _ (by simp [variantCmd, List.getD, statsFormat])
    · exact absurd ⟨hb, hd⟩ hne
    · subst hb; subst hd
      exact ne_of_proj (fun l => l.getD 3 "") _ _ (by simp [variantCmd, List.getD, statsFormat])
    · subst hb; subst hd
      exact ne_of_proj List.length _ _ (by simp [variantCmd])
    · exact absurd ⟨hb, hd⟩ hne
    · subst hb; subst hd
      exact ne_of_proj List.length _ _ (by simp [variantCmd])
    · subst hb; subst hd
      exact ne_of_proj List.length _ _ (by simp [variantCmd])
    · exact absurd ⟨hb, hd⟩ hne
    · subst hb; subst hd
      exact ne_of_proj List.length _ _ (by simp [variantCmd])
    · subst hb; subst hd
      exact ne_of_proj (fun l => l.getD 3 "") _ _ (by simp [variantCmd, List.getD, statsFormat])
    · exact absurd ⟨hb, hd⟩ hne

/-! ## Concrete environments for claims C2 and C3 -/

/-- An environment where every tool succeeds on the formula `Fp`, except
that the deterministic variant's direct statistics query fails with exit
code 1 even though the deterministic automaton itself is produced. -/
def envDetStatsFail : SpotEnv :=
  ⟨fun cmd _ =>
    if cmd = ["ltl2tgba", "-f", "Fp", "-D", statsFormat] then
      .run 1 "" "ltl2tgba: canonicalization failed"
    else if cmd = ["ltl2tgba", "-f", "Fp", "-D"] then .run 0 "HOA: det" ""
    else if cmd = ["ltl2tgba", "-f", "Fp"] then .run 0 "HOA: tgba" ""
    else if cmd = ["ltl2tgba", "-f", "Fp", statsFormat] then .run 0 "2 3 0 1 1" ""
    else if cmd = ["ltl2tgba", "-f", "Fp", "-B"] then .run 0 "HOA: buchi" ""
    else if cmd = ["ltl2tgba", "-f", "Fp", "-B", statsFormat] then .run 0 "2 3 0 1 1" ""
    else .run 0 "1" ""⟩

/-- The classification produced in `envDetStatsFail`. -/
def cDetStatsFail : Classification :=
  match classify_ltl_property envDetStatsFail "Fp" with
  | .ok c => c
  | .error _ => { formula := "" }

/-- The statistics dictionary the deterministic variant receives in
`envDetStatsFail`: the automaton text is produced but the stats query
errored. -/
def detStatsFailDict : AnalysisDict :=
  { error := some (.str ("Failed to get direct stats from ltl2tgba: "
      ++ cpe_str 1 ["ltl2tgba", "-f", "Fp", "-D", statsFormat])) }

/-- C2, counterexample.  In `envDetStatsFail` the deterministic automaton is
produced (`HOA: det`), but because the built-in statistics query failed the
code sets the deterministic attempt's success flag to False and does not
fall back to the automaton analyzer: the nested analysis stays empty.  This
refutes both halves of the claim for the deterministic variant: the success
flag is not true whenever the automaton was produced, and the five base
fields are not obtained from the slow path on a statistics failure. -/
theorem C2_counterexample :
    (get_automaton_and_stats envDetStatsFail "Fp" false true).map Prod.fst = .ok "HOA: det" ∧
    ((classify_ltl_property envDetStatsFail "Fp").map
        (fun c => (c.deterministic_attempt.success,
                   c.deterministic_attempt.automaton_analysis)))
      = .ok (.bool false, ({} : AnalysisDict)) := by
  refine ⟨rfl, rfl⟩

/-- C2, amended.  For the unrestricted and Büchi variants, if the built-in
statistics mode errors or returns an unexpected field count, the analysis is
obtained from the slow-path automaton analyzer applied to whatever automaton
text was produced.  For the deterministic variant there is no such fallback:
the top-level success flag is true exactly when the statistics dictionary
carries no error entry (so it is false when the statistics query fails even
though the automaton was produced), and on error the nested analysis is left
empty while the error text is copied into the error slot. -/
theorem C2_stats_fallback_amended (env : SpotEnv) (φ : String) (c : Classification)
    (hc : classify_ltl_property env φ = .ok c) :
    (∀ hoa stats, get_automaton_and_stats env φ false false = .ok (hoa, stats) →
        stats.error.isSome = true → c.tgba_analysis = analyze_automaton_fallback env hoa) ∧
    (∀ hoa stats, get_automaton_and_stats env φ true false = .ok (hoa, stats) →
        stats.error.isSome = true → c.buchi_analysis = analyze_automaton_fallback env hoa) ∧
    (∀ hoa stats, get_automaton_and_stats env φ false true = .ok (hoa, stats) →
        c.deterministic_attempt.success = .bool (!stats.error.isSome) ∧
        (stats.error.isSome = true →
          c.deterministic_attempt.automaton_analysis = ({} : AnalysisDict) ∧
          c.deterministic_attempt.error = stats.error)) := by
  obtain ⟨-, -, -, -, hta, hba, hda, -⟩ := classify_fields env φ c hc
  refine ⟨?_, ?_, ?_⟩
  · intro hoa stats hg herr
    unfold variant_analysis at hta
    rw [hg] at hta
    simp only [herr, if_true, Except.ok.injEq] at hta
    exact hta.symm
  · intro hoa stats hg herr
    unfold variant_analysis at hba
    rw [hg] at hba
    simp only [herr, if_true, Except.ok.injEq] at hba
    exact hba.symm
  · intro hoa stats hg
    unfold det_attempt_of at hda
    rw [hg] at hda
    by_cases herr : stats.error.isSome = true
    · simp only [herr, if_true, Except.ok.injEq] at hda
      rw [← hda]
      exact ⟨by simp [herr], fun _ => ⟨rfl, rfl⟩⟩
    · have herr' : stats.error.isSome = false := by
        cases hse : stats.error.isSome
        · rfl
        · exact absurd hse herr
      simp only [herr', Bool.false_eq_true, if_false, Except.ok.injEq] at hda
      rw [← hda]
      exact ⟨by simp [herr'], fun hcon => absurd hcon herr⟩

theorem C2_stats_fallback_amended_witness :
    cDetStatsFail.deterministic_attempt.success = .bool (!detStatsFailDict.error.isSome) ∧
    cDetStatsFail.deterministic_attempt.automaton_analysis = ({} : AnalysisDict) ∧
    cDetStatsFail.deterministic_attempt.error = detStatsFailDict.error := by
  have h := (C2_stats_fallback_amended envDetStatsFail "Fp" cDetStatsFail rfl).2.2
    "HOA: det" detStatsFailDict rfl
  exact ⟨h.1, (h.2 (by decide)).1, (h.2 (by decide)).2⟩

/-- An environment where the deterministic translation of `Fp` itself fails
with exit code 1, everything else succeeding. -/
def envDetTransFail : SpotEnv :=
  ⟨fun cmd _ =>
    if cmd = ["ltl2tgba", "-f", "Fp", "-D"] then
      .run 1 "" "ltl2tgba: no deterministic automaton"
    else if cmd = ["ltl2tgba", "-f", "Fp", "-D", statsFormat] then .run 1 "" "unused"
    else if cmd = ["ltl2tgba", "-f", "Fp"] then .run 0 "HOA: tgba" ""
    else if cmd = ["ltl2tgba", "-f", "Fp", statsFormat] then .run 0 "2 3 0 1 1" ""
    else if cmd = ["ltl2tgba", "-f", "Fp", "-B"] then .run 0 "HOA: buchi" ""
    else if cmd = ["ltl2tgba", "-f", "Fp", "-B", statsFormat] then .run 0 "2 3 0 1 1" ""
    else .run 0 "1" ""⟩

/-- The classification produced in `envDetTransFail`. -/
def cDetTransFail : Classification :=
  match classify_ltl_property envDetTransFail "Fp" with
  | .ok c => c
  | .error _ => { formula := "" }

/-- C3, counterexample.  When the deterministic translator invocation fails,
the deterministic attempt's nested analysis is left as the empty dictionary:
its expected keys (state count, determinism flag, ...) are missing and hold
no explicit error marker, refuting the claim that every field of the failed
variant's analysis holds an error marker with no expected key missing.  The
raw error text is preserved in the error slot and the other variants are
fully populated. -/
theorem C3_counterexample :
    ((classify_ltl_property envDetTransFail "Fp").map
        (fun c => (c.deterministic_attempt.success,
                   c.deterministic_attempt.automaton_analysis.state_count,
                   c.deterministic_attempt.automaton_analysis.is_deterministic,
                   c.deterministic_attempt.error)))
      = .ok (.bool false, Option.none, Option.none,
          some (.str (cpe_str 1 ["ltl2tgba", "-f", "Fp", "-D"]))) ∧
    ((classify_ltl_property envDetTransFail "Fp").map
        (fun c => c.buchi_analysis.state_count)) = .ok (some (.int 2)) := by
  refine ⟨rfl, rfl⟩

/-- When the translator's base invocation fails, the unrestricted or Büchi
variant's analysis is the all-Error dictionary: the produced automaton text
is empty, the stats dict carries an error entry, and the fallback on the
empty text yields the error markers. -/
theorem variant_of_base_cpe (env : SpotEnv) (φ : String) (b d : Bool)
    (rc : Int) (cmd : List String) (out err : String)
    (hinv : invoke env (["ltl2tgba", "-f", φ] ++ (if b then ["-B"] else [])
        ++ (if d then ["-D"] else [])) Option.none = .cpe rc cmd out err) :
    variant_analysis env φ b d = .ok allErrorDict := by
  unfold variant_analysis get_automaton_and_stats
  simp only []
  rw [hinv]
  rfl

/-- When the deterministic translator invocation fails, the deterministic
attempt records failure, keeps the nested analysis empty, and copies the
exception text. -/
theorem det_of_base_cpe (env : SpotEnv) (φ : String)
    (rc : Int) (cmd : List String) (out err : String)
    (hinv : invoke env (["ltl2tgba", "-f", φ] ++ (if false then ["-B"] else [])
        ++ (if true then ["-D"] else [])) Option.none = .cpe rc cmd out err) :
    det_attempt_of env φ
      = .ok { success := .bool false
              automaton_analysis := {}
              error := some (.str (cpe_str rc cmd)) } := by
  unfold det_attempt_of get_automaton_and_stats
  simp only []
  simp only [] at hinv
  rw [hinv]
  rfl

/-- C3, amended.  A translator failure on any one automaton variant leaves
the fields of the other two variants and the property-check and Manna-Pnueli
fields unaffected: each of those fields depends only on commands other than
the two translator commands of the failed variant, whichever of the three
variants that is.  For the unrestricted and Büchi variants a translator
failure makes every field of the analysis of that variant an explicit error
marker (the all-Error dictionary, no expected key missing); for the
deterministic variant the nested analysis is instead left empty (its keys
are absent), the success flag becomes false, and the raw translator error
text is preserved in the dedicated error slot. -/
theorem C3_partial_failure_amended (env : SpotEnv) (φ : String) (c : Classification)
    (hc : classify_ltl_property env φ = .ok c)
    (b0 d0 : Bool) (e2 : SpotEnv) (c2 : Classification)
    (hbd : (b0 = false ∧ d0 = false) ∨ (b0 = true ∧ d0 = false) ∨ (b0 = false ∧ d0 = true))
    (hagree : ∀ cmd inp, cmd ≠ variantCmd φ b0 d0
        → cmd ≠ variantCmd φ b0 d0 ++ [statsFormat] → e2.run cmd inp = env.run cmd inp)
    (hc2 : classify_ltl_property e2 φ = .ok c2) :
    (c2.syntactic_safety = c.syntactic_safety ∧
     c2.is_stutter_invariant_formula = c.is_stutter_invariant_formula ∧
     c2.manna_pnueli_class = c.manna_pnueli_class) ∧
    (¬ (b0 = false ∧ d0 = false) → c2.tgba_analysis = c.tgba_analysis) ∧
    (¬ (b0 = true ∧ d0 = false) → c2.buchi_analysis = c.buchi_analysis) ∧
    (¬ (b0 = false ∧ d0 = true) → c2.deterministic_attempt = c.deterministic_attempt) ∧
    (∀ rc cmd out err, invoke env ["ltl2tgba", "-f", φ] Option.none = .cpe rc cmd out err →
        c.tgba_analysis = allErrorDict) ∧
    (∀ rc cmd out err, invoke env ["ltl2tgba", "-f", φ, "-B"] Option.none = .cpe rc cmd out err →
        c.buchi_analysis = allErrorDict) ∧
    (∀ rc cmd out err, invoke env ["ltl2tgba", "-f", φ, "-D"] Option.none = .cpe rc cmd out err →
        c.deterministic_attempt
          = { success := .bool false
              automaton_analysis := {}
              error := some (.str (cpe_str rc cmd)) }) := by
  obtain ⟨-, hp1, hp2, hm, hta, hba, hda, -⟩ := classify_fields env φ c hc
  obtain ⟨-, hq1, hq2, hn, htb, hbb, hdb, -⟩ := classify_fields e2 φ c2 hc2
  obtain ⟨hf1, hf2, hf3, hft, hfb, hfd⟩ := classify_frame env e2 φ b0 d0 hbd hagree
  refine ⟨⟨?_, ?_, ?_⟩, ?_, ?_, ?_, ?_, ?_, ?_⟩
  · exact Except.ok.inj (hq1.symm.trans (hf1.trans hp1))
  · exact Except.ok.inj (hq2.symm.trans (hf2.trans hp2))
  · exact hn.trans (hf3.trans hm.symm)
  · intro hne
    exact Except.ok.inj (htb.symm.trans ((hft hne).trans hta))
  · intro hne
    exact Except.ok.inj (hbb.symm.trans ((hfb hne).trans hba))
  · intro hne
    exact Except.ok.inj (hdb.symm.trans ((hfd hne).trans hda))
  · intro rc cmd out err hinv
    exact Except.ok.inj
      (hta.symm.trans (variant_of_base_cpe env φ false false rc cmd out err hinv))
  · intro rc cmd out err hinv
    exact Except.ok.inj
      (hba.symm.trans (variant_of_base_cpe env φ true false rc cmd out err hinv))
  · intro rc cmd out err hinv
    exact Except.ok.inj
      (hda.symm.trans (det_of_base_cpe env φ rc cmd out err hinv))

theorem C3_partial_failure_amended_witness :
    cDetTransFail.tgba_analysis.state_count = some (.int 2) ∧
    cDetTransFail.deterministic_attempt
      = { success := .bool false
          automaton_analysis := {}
          error := some (.str (cpe_str 1 ["ltl2tgba", "-f", "Fp", "-D"])) } := by
  have h := C3_partial_failure_amended envDetTransFail "Fp" cDetTransFail rfl
    false true envDetTransFail cDetTransFail (Or.inr (Or.inr ⟨rfl, rfl⟩))
    (fun _ _ _ _ => rfl) rfl
  refine ⟨by decide, ?_⟩
  exact h.2.2.2.2.2.2 1 ["ltl2tgba", "-f", "Fp", "-D"] ""
    "ltl2tgba: no deterministic automaton" rfl

/-! ## stats_ext.py: the SpotAnalyzer facade -/

/-- Case-insensitive comparison of ASCII characters (`re.IGNORECASE`). -/
def lowerEq (a b : Char) : Bool := a.toLower = b.toLower

/-- Case-insensitive initial-segment match: does `word` start `l`? -/
def matchCI : List Char → List Char → Bool
  | [], _ => true
  | _ :: _, [] => false
  | p :: ps, c :: cs => lowerEq p c && matchCI ps cs

/-- One pattern of `re.sub` with a plain pattern string: replace each
non-overlapping occurrence of the nonempty `pat` by `repl`, scanning left to
right.  The counter argument makes the recursion structural; a counter equal
to the input length never runs out because every step consumes at least one
character. -/
def subStrF (pat repl : List Char) : Nat → List Char → List Char
  | _, [] => []
  | 0, l => l
  | fuel+1, c :: rest =>
    if listStarts pat (c :: rest) && !pat.isEmpty then
      repl ++ subStrF pat repl fuel ((c :: rest).drop pat.length)
    else c :: subStrF pat repl fuel rest

/-- Plain-string `re.sub` on a whole list. -/
def subStr (pat repl l : List Char) : List Char := subStrF pat repl l.length l

/-- One pattern of `re.sub` with pattern `\b word \b` under `re.IGNORECASE`:
replace each whole-word occurrence, scanning left to right; `prev` carries
the preceding original character for the leading word boundary. -/
def subWordCIF (word repl : List Char) : Nat → Option Char → List Char → List Char
  | _, _, [] => []
  | 0, _, l => l
  | fuel+1, prev, c :: rest =>
    if matchCI word (c :: rest) && !word.isEmpty
        && !(match prev with | some p => isWordChar p | Option.none => false)
        && !(match ((c :: rest).drop word.length).head? with
             | some nxt => isWordChar nxt | Option.none => false) then
      repl ++ subWordCIF word repl fuel (((c :: rest).take word.length).getLast?)
        ((c :: rest).drop word.length)
    else c :: subWordCIF word repl fuel (some c) rest

/-- `re.sub` for the pattern bang-then-whitespace (replaced by a bare `!`,
stats_ext line 122). -/
def collapseBangWsF : Nat → List Char → List Char
  | _, [] => []
  | 0, l => l
  | fuel+1, c :: rest =>
    if c = '!' && (match rest.head? with | some w => isPySpace w | Option.none => false) then
      '!' :: collapseBangWsF fuel (rest.dropWhile isPySpace)
    else c :: collapseBangWsF fuel rest

/-- Does one of the binary operators `&`, `|`, `->` start `l`?  Returns the
operator and the rest. -/
def opAt : List Char → Option (List Char × List Char)
  | '&' :: rest => some (['&'], rest)
  | '|' :: rest => some (['|'], rest)
  | '-' :: '>' :: rest => some (['-', '>'], rest)
  | _ => Option.none

/-- `re.sub` for whitespace-wrapped binary operators, re-padded with exactly
one space on each side (stats_ext line 125). -/
def padOpsF : Nat → List Char → List Char
  | _, [] => []
  | 0, l => l
  | fuel+1, c :: rest =>
    match opAt ((c :: rest).dropWhile isPySpace) with
    | some (op, r2) => ' ' :: op ++ ' ' :: padOpsF fuel (r2.dropWhile isPySpace)
    | Option.none => c :: padOpsF fuel rest

/-- `re.sub` collapsing whitespace runs to one space (stats_ext line 126). -/
def collapseWsF : Nat → List Char → List Char
  | _, [] => []
  | 0, l => l
  | fuel+1, c :: rest =>
    if isPySpace c then ' ' :: collapseWsF fuel (rest.dropWhile isPySpace)
    else c :: collapseWsF fuel rest

/-- stats_ext lines 115-127, `SpotAnalyzer._to_spot_syntax`: rewrite the
friendly connectives to Spot syntax (whole-word and case-insensitive for the
textual ones), glue `!` to its operand, re-pad binary operators, collapse
whitespace runs and strip. -/
def _to_spot_syntax (formula : String) : String :=
  let t := formula.toList
  let t := subStr ("-->".toList) ("->".toList) t
  let t := subWordCIF ("not".toList) ("!".toList) t.length Option.none t
  let t := subWordCIF ("and".toList) ("&".toList) t.length Option.none t
  let t := subWordCIF ("or".toList) ("|".toList) t.length Option.none t
  let t := collapseBangWsF t.length t
  let t := padOpsF t.length t
  let t := collapseWsF t.length t
  pyStrip (String.mk t)

/-- The mutable state of a `SpotAnalyzer` instance (stats_ext lines 12-23).
The `_classify` attribute is not modelled as data: it is set exactly when
`_available` becomes true, and the call then goes to
`classify_ltl_property`. -/
structure SpotAnalyzerState where
  _available : Option Bool := Option.none
  _diagnostics : List String := []
  _issue_map : List (String × List String) := []
deriving DecidableEq, Repr

/-- stats_ext lines 37-39, `_record_warning`: append the message unless it
is already recorded (de-duplicating, order-preserving). -/
def _record_warning (st : SpotAnalyzerState) (message : String) : SpotAnalyzerState :=
  if message ∈ st._diagnostics then st
  else { st with _diagnostics := st._diagnostics ++ [message] }

/-- Everything the analyzer observes about the process environment: whether
the spot_tools import succeeds (with the exception text when it does not),
whether the two helper functions exist on the module, the tool-status map
returned by `spot_status` (tool name to PATH entry; `spot_status` itself
only wraps `shutil.which`, an environment lookup), and the subprocess
backend used by `classify_ltl_property`. -/
structure ExtEnv where
  import_ok : Bool
  import_exc : String
  has_classify : Bool
  has_status : Bool
  status_map : List (String × Option String)
  spot : SpotEnv

/-- Python truthiness of the `path` entry of a status record
(`not info.get("path")`). -/
def pathTruthy : Option String → Bool
  | Option.none => false
  | some s => s ≠ ""

/-- Insert into a sorted list of strings. -/
def insertSorted (x : String) : List String → List String
  | [] => [x]
  | y :: rest => if x ≤ y then x :: y :: rest else y :: insertSorted x rest

/-- Python `sorted(set(l))` for strings: duplicates removed, sorted by code
points. -/
def pySortedSet (l : List String) : List String :=
  l.dedup.foldr insertSorted []

/-- Observable external interactions of the analyzer, used to state that a
call performed no capability check and invoked no external tool. -/
inductive ExtCall where
  | statusQuery
  | classifyCall (spot_formula : String)
deriving DecidableEq, Repr

/-- The diagnostic recorded when Spot CLI tools are missing (stats_ext
lines 72-76). -/
def missingToolsMsg (missing : List String) : String :=
  "[tlparser] Spot CLI tools not found (missing: " ++ pyJoin ", " (pySortedSet missing)
    ++ "); extended digest columns will be empty."

/-- stats_ext lines 41-82, `SpotAnalyzer._ensure_initialized`: memoized via
`_available`; on the first call it checks the import, then the two helper
functions, then queries the tool-status map, recording exactly one
diagnostic for whichever capability is missing.  The returned list notes
whether the status query (the only external interaction here) ran. -/
def ensure_ready (env : ExtEnv) (st : SpotAnalyzerState) :
    Bool × SpotAnalyzerState × List ExtCall :=
  match st._available with
  | some b => (b, st, [])
  | Option.none =>
    if ¬ env.import_ok then
      let st1 := _record_warning st
        ("[tlparser] Spot extensions unavailable (spot_tools import failed); "
          ++ "extended digest columns will be empty. Details: " ++ env.import_exc)
      (false, { st1 with _available := some false }, [])
    else if ¬ env.has_classify ∨ ¬ env.has_status then
      let st1 := _record_warning st
        ("[tlparser] Spot extensions unavailable (missing Spot helper functions); "
          ++ "extended digest columns will be empty.")
      (false, { st1 with _available := some false }, [])
    else
      let missing := (env.status_map.filter (fun p => ¬ pathTruthy p.2)).map Prod.fst
      if missing ≠ [] then
        let st1 := _record_warning st (missingToolsMsg missing)
        (false, { st1 with _available := some false }, [.statusQuery])
      else
        (true, { st with _available := some true }, [.statusQuery])

/-- Python `str(v)` for the scalar values that reach f-strings here. -/
def pyValStr : PyVal → String
  | .int n => toString n
  | .bool b => if b then "True" else "False"
  | .str s => s
  | .pynone => "None"

/-- Python truthiness of an optional dict entry (`dict.get(k)`). -/
def pyTruthy : Option PyVal → Bool
  | Option.none => false
  | some .pynone => false
  | some (.str s) => s ≠ ""
  | some (.bool b) => b
  | some (.int n) => n ≠ 0

/-- ASCII `str.lower`. -/
def pyLower (s : String) : String := String.mk (s.toList.map Char.toLower)

/-- The values present in an analysis dict (`data.values()`; the order is
irrelevant to the membership tests performed on it). -/
def AnalysisDict.values (d : AnalysisDict) : List PyVal :=
  [d.state_count, d.transition_count, d.is_complete, d.is_deterministic,
   d.acceptance_sets, d.is_stutter_invariant, d.analysis_source,
   d.analysis_error, d.error].filterMap id

/-- stats_ext lines 140-149, the `_scan_analysis` sub-function: an
`analysis_error` entry tags the label with the error text; otherwise any
`Error` value tags the bare label (`isinstance(data, dict)` always holds in
this model, so that branch cannot fire). -/
def _scan_analysis (label : String) (data : AnalysisDict) : List String :=
  if pyTruthy data.analysis_error then
    [label ++ " (" ++ (data.analysis_error.map pyValStr).getD "None" ++ ")"]
  else if data.values.any (fun v => v = .str "Error") then [label]
  else []

/-- Merge new issues into a set of issue tags (Python `set.update`,
modelled on duplicate-free lists). -/
def setUnionStr (a b : List String) : List String :=
  a ++ (b.filter (fun x => ¬ x ∈ a)).dedup

/-- `self._issue_map.setdefault(formula, set()).update(issues)` on the
association-list model of the issue map. -/
def updateIssueMap (m : List (String × List String)) (formula : String)
    (issues : List String) : List (String × List String) :=
  match m with
  | [] => [(formula, setUnionStr [] issues)]
  | (f, is) :: rest =>
      if f = formula then (f, setUnionStr is issues) :: rest
      else (f, is) :: updateIssueMap rest formula issues

/-- stats_ext lines 129-170, `_record_partial_warning`: collect issue tags
from the classification result and merge them into the per-formula issue
map; nothing is recorded when no issue was found. -/
def _record_partial_warning (st : SpotAnalyzerState) (formula : String)
    (result : Classification) : SpotAnalyzerState :=
  let issues0 : List String :=
    (if result.syntactic_safety = .str "Error" then ["syntactic_safety"] else [])
    ++ (if result.is_stutter_invariant_formula = .str "Error" then
          ["stutter_invariance"] else [])
    ++ (match result.manna_pnueli_class with
        | .str s => if listStarts ("error".toList) ((pyLower s).toList) then
            ["manna_pnueli_class"] else []
        | _ => [])
  let issues1 := issues0 ++ _scan_analysis "tgba_analysis" result.tgba_analysis
      ++ _scan_analysis "buchi_analysis" result.buchi_analysis
  let det := result.deterministic_attempt
  let issues2 := issues1 ++
    (if det.success = .bool false then
       (if pyTruthy det.error then
          ["deterministic_attempt (" ++ (det.error.map pyValStr).getD "None" ++ ")"]
        else ["deterministic_attempt"])
     else if det.automaton_analysis.values.any (fun v => v = .str "Error") then
       ["deterministic_attempt"]
     else [])
  if issues2 = [] then st
  else { st with _issue_map := updateIssueMap st._issue_map formula issues2 }

/-- stats_ext lines 84-113, `SpotAnalyzer.classify`: an empty formula
returns no result immediately; an unavailable toolchain (memoized in
`_available`) returns no result; otherwise the formula is translated to
Spot syntax and `classify_ltl_property` runs, the result being re-labelled
with the original formula and scanned for partial failures.  A
`FileNotFoundError` during classification records a warning and flips the
instance to unavailable; the generic exception branch (unreachable with the
valid check types used) records the per-formula warning.  The returned list
records the external interactions performed by the call. -/
def SpotAnalyzer.classify (env : ExtEnv) (st : SpotAnalyzerState) (formula : String) :
    Option Classification × SpotAnalyzerState × List ExtCall :=
  if formula = "" then (Option.none, st, [])
  else
    match ensure_ready env st with
    | (false, st1, calls) => (Option.none, st1, calls)
    | (true, st1, calls) =>
      let spot_formula := _to_spot_syntax formula
      match classify_ltl_property env.spot spot_formula with
      | .ok result0 =>
          let original_spot := result0.formula
          let result := { result0 with
            spot_formula := some original_spot
            formula := formula }
          (some result, _record_partial_warning st1 formula result,
           calls ++ [.classifyCall spot_formula])
      | .error (.fileNotFound _) =>
          let st2 := _record_warning st1
            ("[tlparser] Required Spot CLI tool missing during classification; "
              ++ "extended digest columns will be empty.")
          (Option.none, { st2 with _available := some false },
           calls ++ [.classifyCall spot_formula])
      | .error .valueError =>
          let st2 := _record_warning st1
            ("[tlparser] Spot classification failed for \x27" ++ formula
              ++ "\x27: ValueError; extended digest columns will be empty for this formula.")
          (Option.none, st2, calls ++ [.classifyCall spot_formula])

/-- C6, confirmed.  For the empty formula string, `classify` returns no
result before the capability check runs (no external interaction at all)
and leaves the analyzer state — diagnostics and issue map included —
unchanged. -/
theorem C6_empty_formula (env : ExtEnv) (st : SpotAnalyzerState) :
    SpotAnalyzer.classify env st "" = (Option.none, st, []) := by
  unfold SpotAnalyzer.classify
  simp

/-- The analyzer state after the first capability check fails on missing
tools: the single diagnostic is recorded and availability is memoized as
false. -/
def stAfterMissing (env : ExtEnv) (st0 : SpotAnalyzerState) : SpotAnalyzerState :=
  let st1 := _record_warning st0
    (missingToolsMsg ((env.status_map.filter (fun p => ¬ pathTruthy p.2)).map Prod.fst))
  { st1 with _available := some false }

/-- C7, confirmed.  When a required Spot CLI tool is unavailable, the first
classification call on a fresh analyzer records exactly one diagnostic
naming the missing tools and returns no result, and every subsequent call
returns no result with the state unchanged and no external interaction (no
availability re-check, no tool invocation). -/
theorem C7_tool_unavailable (env : ExtEnv) (st0 : SpotAnalyzerState) (φ ψ : String)
    (hφ : φ ≠ "") (hψ : ψ ≠ "")
    (himp : env.import_ok = true) (hcl : env.has_classify = true)
    (hst : env.has_status = true)
    (hmiss : (env.status_map.filter (fun p => ¬ pathTruthy p.2)).map Prod.fst ≠ [])
    (hinit : st0._available = Option.none) (hdiag : st0._diagnostics = []) :
    (SpotAnalyzer.classify env st0 φ).1 = Option.none ∧
    ((SpotAnalyzer.classify env st0 φ).2.1)._diagnostics
      = [missingToolsMsg ((env.status_map.filter (fun p => ¬ pathTruthy p.2)).map Prod.fst)] ∧
    ((SpotAnalyzer.classify env st0 φ).2.1)._issue_map = st0._issue_map ∧
    SpotAnalyzer.classify env ((SpotAnalyzer.classify env st0 φ).2.1) ψ
      = (Option.none, (SpotAnalyzer.classify env st0 φ).2.1, []) := by
  have hens : ensure_ready env st0 = (false, stAfterMissing env st0, [.statusQuery]) := by
    unfold ensure_ready stAfterMissing
    rw [hinit]
    simp [himp, hcl, hst]
    simpa using hmiss
  have hc1 : SpotAnalyzer.classify env st0 φ
      = (Option.none, stAfterMissing env st0, [.statusQuery]) := by
    unfold SpotAnalyzer.classify
    rw [if_neg hφ, hens]
  rw [hc1]
  refine ⟨rfl, ?_, ?_, ?_⟩
  · unfold stAfterMissing _record_warning
    rw [hdiag]
    simp
  · unfold stAfterMissing _record_warning
    split <;> rfl
  · unfold SpotAnalyzer.classify
    rw [if_neg hψ]
    rfl

/-- A concrete environment in which a required Spot tool is absent from the
PATH. -/
def envToolsMissing : ExtEnv :=
  { import_ok := true, import_exc := "", has_classify := true, has_status := true,
    status_map := [("ltl2tgba", Option.none), ("ltlfilt", some "/usr/bin/ltlfilt"),
                   ("autfilt", Option.none)],
    spot := ⟨fun _ _ => .missing⟩ }

theorem C7_tool_unavailable_witness :
    (SpotAnalyzer.classify envToolsMissing {} "Gp").1 = Option.none ∧
    ((SpotAnalyzer.classify envToolsMissing {} "Gp").2.1)._diagnostics
      = [missingToolsMsg ((envToolsMissing.status_map.filter
          (fun p => ¬ pathTruthy p.2)).map Prod.fst)] ∧
    ((SpotAnalyzer.classify envToolsMissing {} "Gp").2.1)._issue_map
      = ({} : SpotAnalyzerState)._issue_map ∧
    SpotAnalyzer.classify envToolsMissing
        ((SpotAnalyzer.classify envToolsMissing {} "Gp").2.1) "Fq"
      = (Option.none, (SpotAnalyzer.classify envToolsMissing {} "Gp").2.1, []) :=
  C7_tool_unavailable envToolsMissing {} "Gp" "Fq" (by decide) (by decide)
    rfl rfl rfl (by decide) rfl rfl

end Tlparser
